import Mathlib

/-!
Verification development for the `ubl-ts` UBL 2.1 invoice parser and
normalizer.  The TypeScript sources (`src/parser.ts`, `src/normalize.ts`,
`src/types.ts`) are shallowly embedded below: the XML DOM is modelled as a
tree of elements and text nodes, JavaScript numbers as exact rationals
extended with signed infinities and NaN, and every parser / normalizer
function is translated definition-by-definition from the source.
-/

-- --- Kernel-computable rational arithmetic ---
--
-- The library's rational addition, subtraction, multiplication and
-- inversion are irreducible, so the embedding defines its own in terms of
-- `Rat.divInt`; the lemmas `qAdd_eq`, `qSub_eq`, `qMul_eq`, `qDiv_eq` and
-- `qAbs_eq` below prove them equal to the standard operations.

/-- Rational addition via `Rat.divInt` (equal to `+`, see `qAdd_eq`). -/
def qAdd (a b : ℚ) : ℚ :=
  Rat.divInt (a.num * b.den + b.num * a.den) (a.den * b.den)

/-- Rational subtraction via `qAdd` (equal to `-`, see `qSub_eq`). -/
def qSub (a b : ℚ) : ℚ := qAdd a (-b)

/-- Rational multiplication via `Rat.divInt` (equal to `*`, see `qMul_eq`). -/
def qMul (a b : ℚ) : ℚ := Rat.divInt (a.num * b.num) (a.den * b.den)

/-- Rational division via `Rat.divInt` (equal to `/`, see `qDiv_eq`). -/
def qDiv (a b : ℚ) : ℚ := Rat.divInt (a.num * b.den) (a.den * b.num)

/-- Rational absolute value (equal to `|·|`, see `qAbs_eq`). -/
def qAbs (a : ℚ) : ℚ := if a.num < 0 then -a else a

/-- Powers of ten over the integers. -/
def pow10Int : ℕ → ℤ
  | 0 => 1
  | n + 1 => 10 * pow10Int n

/-- Integer power of ten as a rational. -/
def pow10 (e : ℤ) : ℚ :=
  if 0 ≤ e then Rat.divInt (pow10Int e.toNat) 1
  else Rat.divInt 1 (pow10Int (-e).toNat)

/-- Round to two decimal places, ties upward: `⌊a * 100 + 1/2⌋ / 100`, with
the floor written as `Int.fdiv` on the numerator and denominator. -/
def qRound2 (a : ℚ) : ℚ :=
  let x := qAdd (qMul a 100) (Rat.divInt 1 2)
  Rat.divInt (x.num.fdiv (x.den : ℤ)) 100

/-- Model of a JavaScript `number` as it can occur in this code base:
an exact rational (standing for a finite double), a signed infinity, or NaN.
The embedding uses exact rational arithmetic instead of binary doubles. -/
inductive JsNum where
  | fin : ℚ → JsNum
  | posInf : JsNum
  | negInf : JsNum
  | nan : JsNum
deriving DecidableEq

/-- IEEE-style addition on the JavaScript number model. -/
def JsNum.add : JsNum → JsNum → JsNum
  | .nan, _ => .nan
  | _, .nan => .nan
  | .posInf, .negInf => .nan
  | .negInf, .posInf => .nan
  | .posInf, _ => .posInf
  | _, .posInf => .posInf
  | .negInf, _ => .negInf
  | _, .negInf => .negInf
  | .fin a, .fin b => .fin (qAdd a b)

/-- IEEE-style negation on the JavaScript number model. -/
def JsNum.neg : JsNum → JsNum
  | .fin a => .fin (-a)
  | .posInf => .negInf
  | .negInf => .posInf
  | .nan => .nan

/-- IEEE-style subtraction, `x - y = x + (-y)`. -/
def JsNum.sub (x y : JsNum) : JsNum := x.add y.neg

/-- IEEE-style multiplication on the JavaScript number model. -/
def JsNum.mul : JsNum → JsNum → JsNum
  | .nan, _ => .nan
  | _, .nan => .nan
  | .fin a, .fin b => .fin (qMul a b)
  | .fin a, .posInf => if a = 0 then .nan else if 0 < a then .posInf else .negInf
  | .fin a, .negInf => if a = 0 then .nan else if 0 < a then .negInf else .posInf
  | .posInf, .fin b => if b = 0 then .nan else if 0 < b then .posInf else .negInf
  | .negInf, .fin b => if b = 0 then .nan else if 0 < b then .negInf else .posInf
  | .posInf, .posInf => .posInf
  | .posInf, .negInf => .negInf
  | .negInf, .posInf => .negInf
  | .negInf, .negInf => .posInf

/-- IEEE-style division on the JavaScript number model (the rational model
has no negative zero, so `x / 0` uses the sign of the dividend). -/
def JsNum.div : JsNum → JsNum → JsNum
  | .nan, _ => .nan
  | _, .nan => .nan
  | .posInf, .posInf => .nan
  | .posInf, .negInf => .nan
  | .negInf, .posInf => .nan
  | .negInf, .negInf => .nan
  | .posInf, .fin b => if 0 ≤ b then .posInf else .negInf
  | .negInf, .fin b => if 0 ≤ b then .negInf else .posInf
  | .fin _, .posInf => .fin 0
  | .fin _, .negInf => .fin 0
  | .fin a, .fin b =>
      if b = 0 then (if a = 0 then .nan else if 0 < a then .posInf else .negInf)
      else .fin (qDiv a b)

/-- Absolute value, `Math.abs`. -/
def JsNum.abs : JsNum → JsNum
  | .fin a => .fin (qAbs a)
  | .posInf => .posInf
  | .negInf => .posInf
  | .nan => .nan

/-- The `Number.isFinite` predicate. -/
def JsNum.isFinite : JsNum → Bool
  | .fin _ => true
  | _ => false

/-- IEEE-style strict comparison `x < y` (false whenever NaN is involved). -/
def JsNum.ltb : JsNum → JsNum → Bool
  | .nan, _ => false
  | _, .nan => false
  | .negInf, .negInf => false
  | .negInf, _ => true
  | _, .negInf => false
  | .posInf, _ => false
  | .fin _, .posInf => true
  | .fin a, .fin b => a < b

/-- JavaScript truthiness of a number: `0` and `NaN` are falsy. -/
def JsNum.truthy : JsNum → Bool
  | .fin a => a ≠ 0
  | .nan => false
  | _ => true

/-- Model of `Number(x.toFixed(2))`: a finite value is rounded to two decimal
places (ties to the larger value, as the `toFixed` specification picks the
larger candidate); infinities and NaN round-trip through their string forms
unchanged. -/
def JsNum.toFixed2 : JsNum → JsNum
  | .fin a => .fin (qRound2 a)
  | x => x

-- --- JavaScript string helpers ---

/-- Whitespace class used by JavaScript `trim` and the regexp class
backslash-s (the ASCII members plus no-break space, which are the only ones
reachable from XML text in practice). -/
def jsWhitespace (c : Char) : Bool :=
  c = ' ' ∨ c = '\t' ∨ c = '\n' ∨ c = '\r' ∨
    c = Char.ofNat 11 ∨ c = Char.ofNat 12 ∨ c = Char.ofNat 160

/-- Model of `String.prototype.trim`. -/
def jsTrim (s : String) : String :=
  ⟨(((s.data.dropWhile jsWhitespace).reverse).dropWhile jsWhitespace).reverse⟩

/-- Model of `String.prototype.toUpperCase` (ASCII range). -/
def jsToUpper (s : String) : String := ⟨s.data.map Char.toUpper⟩

/-- Model of `String.prototype.toLowerCase` (ASCII range). -/
def jsToLower (s : String) : String := ⟨s.data.map Char.toLower⟩

/-- Model of string replace of the regexp class backslash-s-plus by the
empty string: drop every whitespace character. -/
def stripWhitespace (s : String) : String :=
  ⟨s.data.filter (fun c => !jsWhitespace c)⟩

/-- Model of `String.prototype.endsWith`. -/
def jsEndsWith (s suffix : String) : Bool := suffix.data.isSuffixOf s.data

/-- The recurring TypeScript pattern `s || undefined`: an empty string is
falsy and becomes `undefined` (here `none`). -/
def strOpt (s : String) : Option String := if s = "" then none else some s

-- --- Model of Number.parseFloat ---

/-- Numeric value of a list of decimal digit characters. -/
def digitsToNat (ds : List Char) : ℕ :=
  ds.foldl (fun a c => a * 10 + (c.toNat - '0'.toNat)) 0

/-- Model of `Number.parseFloat`: skip leading whitespace, read an optional
sign, then either the literal `Infinity` or a decimal literal with optional
fraction and exponent; the longest valid prefix is used and NaN is returned
when no prefix parses.  Values are kept as exact rationals. -/
def parseFloatJs (s : String) : JsNum :=
  let cs := s.data.dropWhile jsWhitespace
  let signed : Bool × List Char :=
    match cs with
    | '-' :: rest => (true, rest)
    | '+' :: rest => (false, rest)
    | _ => (false, cs)
  let neg := signed.1
  let cs := signed.2
  if cs.take 8 = "Infinity".data then
    if neg then .negInf else .posInf
  else
    let intDigits := cs.takeWhile Char.isDigit
    let cs1 := cs.dropWhile Char.isDigit
    let fracPart : List Char × List Char :=
      match cs1 with
      | '.' :: rest => (rest.takeWhile Char.isDigit, rest.dropWhile Char.isDigit)
      | _ => ([], cs1)
    let fracDigits := fracPart.1
    let cs2 := fracPart.2
    if intDigits = [] ∧ fracDigits = [] then .nan
    else
      let mantissa : ℚ :=
        qAdd (digitsToNat intDigits : ℚ)
          (Rat.divInt (digitsToNat fracDigits : ℤ) (pow10Int fracDigits.length))
      let exp : ℤ :=
        match cs2 with
        | e :: rest =>
            if e = 'e' ∨ e = 'E' then
              let esigned : Bool × List Char :=
                match rest with
                | '-' :: r => (true, r)
                | '+' :: r => (false, r)
                | _ => (false, rest)
              let eds := esigned.2.takeWhile Char.isDigit
              if eds = [] then 0
              else if esigned.1 then -(digitsToNat eds : ℤ) else (digitsToNat eds : ℤ)
            else 0
        | [] => 0
      let m := if neg then -mantissa else mantissa
      .fin (qMul m (pow10 exp))

-- --- XML tree model ---

-- A DOM node is a namespaced element with attributes and ordered children,
-- or a text node.  The child list is a dedicated mutual inductive so that
-- the tree recursions below are structural.
mutual
/-- Model of a DOM node: a namespaced element or a text node. -/
inductive XmlNode where
  | elem (ns tag : String) (attrs : List (String × String)) (children : XmlNodeList)
  | text (s : String)
/-- A list of DOM nodes (the `childNodes` of an element). -/
inductive XmlNodeList where
  | nil
  | cons (head : XmlNode) (tail : XmlNodeList)
end

/-- Convert a child list to an ordinary list. -/
def XmlNodeList.toList : XmlNodeList → List XmlNode
  | .nil => []
  | .cons h t => h :: t.toList

/-- Build a child list from an ordinary list. -/
def XmlNodeList.ofList : List XmlNode → XmlNodeList
  | [] => .nil
  | h :: t => .cons h (XmlNodeList.ofList t)

/-- Child list of a node (empty for text nodes). -/
def XmlNode.childrenOf : XmlNode → List XmlNode
  | .elem _ _ _ cs => cs.toList
  | .text _ => []

/-- Namespace URI of a node (empty for text nodes). -/
def XmlNode.nsOf : XmlNode → String
  | .elem ns _ _ _ => ns
  | .text _ => ""

/-- Local name of a node (empty for text nodes). -/
def XmlNode.tagOf : XmlNode → String
  | .elem _ tag _ _ => tag
  | .text _ => ""

/-- Model of `Element.getAttribute`: `none` models the DOM `null`. -/
def XmlNode.getAttribute (n : XmlNode) (name : String) : Option String :=
  match n with
  | .elem _ _ attrs _ => (attrs.find? (fun p => p.1 == name)).map (·.2)
  | .text _ => none

/-- Concatenated text content of a child list, in document order. -/
def textContentList : XmlNodeList → String
  | .nil => ""
  | .cons (.text s) rest => s ++ textContentList rest
  | .cons (.elem _ _ _ cs) rest => textContentList cs ++ textContentList rest

/-- Model of `Node.textContent` for elements and text nodes. -/
def XmlNode.textContent : XmlNode → String
  | .text s => s
  | .elem _ _ _ cs => textContentList cs

/-- All elements with the given namespace and local name among the nodes of
a child list and their descendants, in document (pre-)order. -/
def elementsByTagNsList : XmlNodeList → String → String → List XmlNode
  | .nil, _, _ => []
  | .cons (.text _) rest, ns, tag => elementsByTagNsList rest ns tag
  | .cons (.elem ns2 t2 a2 cs2) rest, ns, tag =>
      (if ns2 = ns ∧ t2 = tag then [XmlNode.elem ns2 t2 a2 cs2] else []) ++
        (elementsByTagNsList cs2 ns tag ++ elementsByTagNsList rest ns tag)

/-- Model of `Element.getElementsByTagNameNS`: matching descendants of the
node, in document order, excluding the node itself. -/
def getElementsByTagNameNS (n : XmlNode) (ns tag : String) : List XmlNode :=
  match n with
  | .elem _ _ _ cs => elementsByTagNsList cs ns tag
  | .text _ => []

/-- Direct-child elements with the given namespace and local name
(`childElementsByTagNs` in `parser.ts`: iterate `childNodes`, keep element
nodes whose `namespaceURI` and `localName` match). -/
def childElementsByTagNs (parent : XmlNode) (ns tag : String) : List XmlNode :=
  parent.childrenOf.filter fun n =>
    match n with
    | .elem ns2 t2 _ _ => ns2 == ns && t2 == tag
    | .text _ => false

-- --- Namespace constants and DOM helpers from parser.ts ---

/-- UBL Common Basic Components namespace. -/
def CBC_NS : String := "urn:oasis:names:specification:ubl:schema:xsd:CommonBasicComponents-2"

/-- UBL Common Aggregate Components namespace. -/
def CAC_NS : String := "urn:oasis:names:specification:ubl:schema:xsd:CommonAggregateComponents-2"

/-- `cbcText`: trimmed text of the first CBC descendant with the tag,
empty string when absent. -/
def cbcText (parent : XmlNode) (tag : String) : String :=
  match (getElementsByTagNameNS parent CBC_NS tag).head? with
  | some el => jsTrim el.textContent
  | none => ""

/-- `cacElement`: first CAC descendant with the tag. -/
def cacElement (parent : XmlNode) (tag : String) : Option XmlNode :=
  (getElementsByTagNameNS parent CAC_NS tag).head?

/-- `cacElements`: all CAC descendants with the tag. -/
def cacElements (parent : XmlNode) (tag : String) : List XmlNode :=
  getElementsByTagNameNS parent CAC_NS tag

/-- `cbcNumber`: `parseFloat` of `cbcText`, with NaN replaced by `0`. -/
def cbcNumber (parent : XmlNode) (tag : String) : JsNum :=
  match parseFloatJs (cbcText parent tag) with
  | .nan => .fin 0
  | x => x

/-- `cbcDirectText`: trimmed text of the first direct CBC child with the
tag, empty string when absent. -/
def cbcDirectText (parent : XmlNode) (tag : String) : String :=
  match (childElementsByTagNs parent CBC_NS tag).head? with
  | some el => jsTrim el.textContent
  | none => ""

/-- `cbcDirectNumber`: `parseFloat` of the direct-child text; `none` when the
text is empty or does not parse. -/
def cbcDirectNumber (parent : XmlNode) (tag : String) : Option JsNum :=
  let value := cbcDirectText parent tag
  if value = "" then none
  else
    match parseFloatJs value with
    | .nan => none
    | x => some x

/-- `cacDirectElement`: first direct CAC child with the tag. -/
def cacDirectElement (parent : XmlNode) (tag : String) : Option XmlNode :=
  (childElementsByTagNs parent CAC_NS tag).head?

/-- `cacDirectElements`: all direct CAC children with the tag. -/
def cacDirectElements (parent : XmlNode) (tag : String) : List XmlNode :=
  childElementsByTagNs parent CAC_NS tag

-- --- UBL document model (types.ts) ---

/-- `UblAddress` from `types.ts`. -/
structure UblAddress where
  street : String
  additionalStreet : Option String
  city : String
  postalZone : String
  countrySubentity : Option String
  countryCode : String
deriving DecidableEq

/-- `UblContact` from `types.ts`. -/
structure UblContact where
  name : Option String
  phone : Option String
  email : Option String
deriving DecidableEq

/-- `UblParty` from `types.ts`. -/
structure UblParty where
  name : String
  registrationName : Option String
  companyLegalForm : Option String
  vatId : Option String
  taxSchemeId : Option String
  companyId : Option String
  endpointId : Option String
  endpointSchemeId : Option String
  address : Option UblAddress
  contact : Option UblContact
deriving DecidableEq

/-- `UblAllowanceCharge` from `types.ts`. -/
structure UblAllowanceCharge where
  chargeIndicator : Bool
  amount : JsNum
  baseAmount : Option JsNum
  multiplierFactorNumeric : Option JsNum
  reason : Option String
  reasonCode : Option String
  taxPercent : Option JsNum
  taxCategoryId : Option String
  taxSchemeId : Option String
deriving DecidableEq

/-- `UblTaxSubtotal` from `types.ts`. -/
structure UblTaxSubtotal where
  taxableAmount : JsNum
  taxAmount : JsNum
  taxPercent : JsNum
  taxCategoryId : Option String
  taxSchemeId : Option String
  taxExemptionReason : Option String
deriving DecidableEq

/-- `UblLine` from `types.ts`. -/
structure UblLine where
  id : String
  description : String
  quantity : JsNum
  unitCode : String
  unitPrice : JsNum
  lineExtensionAmount : JsNum
  taxPercent : Option JsNum
  taxAmount : Option JsNum
  taxCategoryId : Option String
  taxSchemeId : Option String
  taxSubtotals : Option (List UblTaxSubtotal)
  allowanceCharges : Option (List UblAllowanceCharge)
  discountAmount : Option JsNum
  chargeAmount : Option JsNum
  itemName : Option String
  sellersItemId : Option String
  buyersItemId : Option String
deriving DecidableEq

/-- `UblMonetaryTotal` from `types.ts`. -/
structure UblMonetaryTotal where
  lineExtensionAmount : JsNum
  taxExclusiveAmount : JsNum
  taxInclusiveAmount : JsNum
  allowanceTotalAmount : Option JsNum
  chargeTotalAmount : Option JsNum
  prepaidAmount : Option JsNum
  payableRoundingAmount : Option JsNum
  payableAmount : JsNum
deriving DecidableEq

/-- `UblPaymentMeans` from `types.ts`. -/
structure UblPaymentMeans where
  code : String
  codeName : Option String
  paymentId : Option String
  iban : Option String
  bic : Option String
  accountName : Option String
deriving DecidableEq

/-- `UblInvoicePeriod` from `types.ts`. -/
structure UblInvoicePeriod where
  startDate : Option String
  endDate : Option String
  descriptionCode : Option String
deriving DecidableEq

/-- `UblAttachment` from `types.ts`. -/
structure UblAttachment where
  id : String
  filename : Option String
  mimeCode : Option String
  description : Option String
  base64Content : String
deriving DecidableEq

/-- `UblDelivery` from `types.ts`. -/
structure UblDelivery where
  actualDeliveryDate : Option String
  address : Option UblAddress
deriving DecidableEq

/-- The two recognized document kinds. -/
inductive UblDocumentType where
  | invoice
  | creditNote
deriving DecidableEq

/-- `UblInvoice` from `types.ts`. -/
structure UblInvoice where
  documentType : UblDocumentType
  customizationId : Option String
  profileId : Option String
  id : String
  invoiceTypeCode : Option String
  issueDate : String
  dueDate : Option String
  taxPointDate : Option String
  currency : String
  buyerReference : Option String
  orderReference : Option String
  salesOrderId : Option String
  contractReference : Option String
  projectReference : Option String
  seller : UblParty
  buyer : UblParty
  delivery : Option UblDelivery
  lines : List UblLine
  taxSubtotals : List UblTaxSubtotal
  monetaryTotal : UblMonetaryTotal
  paymentMeans : Option UblPaymentMeans
  paymentMeansList : Option (List UblPaymentMeans)
  invoicePeriod : Option UblInvoicePeriod
  note : Option String
  paymentTermsNote : Option String
  attachments : Option (List UblAttachment)
  allowanceCharges : List UblAllowanceCharge
deriving DecidableEq

-- --- Section parsers (parser.ts) ---

/-- The pattern `cbcNumber(...) || undefined`: a JavaScript-falsy number
(zero, and NaN, which `cbcNumber` already collapsed to zero) becomes
`undefined`. -/
def numOrUndef (x : JsNum) : Option JsNum := if x.truthy then some x else none

/-- `parseAddressFromElement` from `parser.ts`. -/
def parseAddressFromElement : Option XmlNode → Option UblAddress
  | none => none
  | some address =>
      let country := cacElement address "Country"
      some {
        street := cbcText address "StreetName"
        additionalStreet := strOpt (cbcText address "AdditionalStreetName")
        city := cbcText address "CityName"
        postalZone := cbcText address "PostalZone"
        countrySubentity := strOpt (cbcText address "CountrySubentity")
        countryCode :=
          match country with
          | some c => cbcText c "IdentificationCode"
          | none => "" }

/-- `parseAddress` from `parser.ts`. -/
def parseAddress (party : XmlNode) : Option UblAddress :=
  parseAddressFromElement (cacElement party "PostalAddress")

/-- `parseTaxSchemeId` from `parser.ts`. -/
def parseTaxSchemeId : Option XmlNode → Option String
  | none => none
  | some parent =>
      match cacElement parent "TaxScheme" with
      | none => none
      | some taxScheme => strOpt (cbcText taxScheme "ID")

/-- `parseContact` from `parser.ts`. -/
def parseContact (party : XmlNode) : Option UblContact :=
  match cacElement party "Contact" with
  | none => none
  | some contact =>
      let name := cbcText contact "Name"
      let phone := cbcText contact "Telephone"
      let email := cbcText contact "ElectronicMail"
      if name = "" ∧ phone = "" ∧ email = "" then none
      else some { name := strOpt name, phone := strOpt phone, email := strOpt email }

/-- `parseParty` from `parser.ts`. -/
def parseParty (root : XmlNode) (role : String) : UblParty :=
  let party := (cacElement root role).bind (fun wrapper => cacElement wrapper "Party")
  match party with
  | none =>
      { name := "Unknown", registrationName := none, companyLegalForm := none,
        vatId := none, taxSchemeId := none, companyId := none, endpointId := none,
        endpointSchemeId := none, address := none, contact := none }
  | some party =>
      let partyName := cacElement party "PartyName"
      let legalEntity := cacElement party "PartyLegalEntity"
      let taxScheme := cacElement party "PartyTaxScheme"
      let partyId := cacElement party "PartyIdentification"
      let endpointEl := (getElementsByTagNameNS party CBC_NS "EndpointID").head?
      { name :=
          match partyName with
          | some p => cbcText p "Name"
          | none => ""
        registrationName := legalEntity.bind (fun le => strOpt (cbcText le "RegistrationName"))
        companyLegalForm := legalEntity.bind (fun le => strOpt (cbcText le "CompanyLegalForm"))
        vatId := taxScheme.bind (fun ts => strOpt (cbcText ts "CompanyID"))
        taxSchemeId := parseTaxSchemeId taxScheme
        companyId :=
          match legalEntity with
          | some le => strOpt (cbcText le "CompanyID")
          | none => partyId.bind (fun p => strOpt (cbcText p "ID"))
        endpointId := endpointEl.bind (fun el => strOpt (jsTrim el.textContent))
        endpointSchemeId :=
          (endpointEl.bind (fun el => el.getAttribute "schemeID")).bind strOpt
        address := parseAddress party
        contact := parseContact party }

/-- `parseTaxSubtotal` from `parser.ts`. -/
def parseTaxSubtotal (sub : XmlNode) : UblTaxSubtotal :=
  let cat := cacElement sub "TaxCategory"
  { taxableAmount := cbcNumber sub "TaxableAmount"
    taxAmount := cbcNumber sub "TaxAmount"
    taxPercent :=
      match cat with
      | some c => cbcNumber c "Percent"
      | none => .fin 0
    taxCategoryId := cat.bind (fun c => strOpt (cbcText c "ID"))
    taxSchemeId := parseTaxSchemeId cat
    taxExemptionReason := cat.bind (fun c => strOpt (cbcText c "TaxExemptionReason")) }

/-- `parseTaxSubtotalsFromTaxTotal` from `parser.ts`. -/
def parseTaxSubtotalsFromTaxTotal (taxTotal : XmlNode) : List UblTaxSubtotal :=
  (cacDirectElements taxTotal "TaxSubtotal").map parseTaxSubtotal

/-- `parseTaxSubtotals` from `parser.ts`. -/
def parseTaxSubtotals (root : XmlNode) : List UblTaxSubtotal :=
  let taxTotals := cacDirectElements root "TaxTotal"
  if taxTotals.length = 0 then []
  else taxTotals.flatMap parseTaxSubtotalsFromTaxTotal

/-- `parseAllowanceCharge` from `parser.ts`. -/
def parseAllowanceCharge (charge : XmlNode) : UblAllowanceCharge :=
  let taxCategory := cacElement charge "TaxCategory"
  let indicatorRaw := jsToLower (cbcDirectText charge "ChargeIndicator")
  { chargeIndicator := indicatorRaw == "true" || indicatorRaw == "1"
    amount := cbcNumber charge "Amount"
    baseAmount := cbcDirectNumber charge "BaseAmount"
    multiplierFactorNumeric := cbcDirectNumber charge "MultiplierFactorNumeric"
    reason := strOpt (cbcText charge "AllowanceChargeReason")
    reasonCode := strOpt (cbcText charge "AllowanceChargeReasonCode")
    taxPercent := taxCategory.map (fun c => cbcNumber c "Percent")
    taxCategoryId := taxCategory.bind (fun c => strOpt (cbcText c "ID"))
    taxSchemeId := parseTaxSchemeId taxCategory }

/-- `parseAllowanceCharges` from `parser.ts`. -/
def parseAllowanceCharges (parent : XmlNode) : List UblAllowanceCharge :=
  (cacDirectElements parent "AllowanceCharge").map parseAllowanceCharge

/-- The per-line mapping closure inside `parseLines` in `parser.ts`. -/
def parseLine (isCreditNote : Bool) (line : XmlNode) : UblLine :=
  let qtyTag := if isCreditNote then "CreditedQuantity" else "InvoicedQuantity"
  let item := cacElement line "Item"
  let price := cacElement line "Price"
  let taxCategory := item.bind (fun i => cacElement i "ClassifiedTaxCategory")
  let sellersId := item.bind (fun i => cacElement i "SellersItemIdentification")
  let buyersId := item.bind (fun i => cacElement i "BuyersItemIdentification")
  let qtyEl := (getElementsByTagNameNS line CBC_NS qtyTag).head?
  let lineExtensionAmount := cbcNumber line "LineExtensionAmount"
  let lineTaxTotal := cacDirectElement line "TaxTotal"
  let lineTaxSubtotals :=
    match lineTaxTotal with
    | some t => parseTaxSubtotalsFromTaxTotal t
    | none => []
  let taxAmountFromSubtotals :=
    lineTaxSubtotals.foldl (fun sum s => sum.add s.taxAmount) (.fin 0)
  let taxAmountFromLineTotal := lineTaxTotal.bind (fun t => cbcDirectNumber t "TaxAmount")
  let taxPercent :=
    (lineTaxSubtotals.head?.map (·.taxPercent)).or
      (taxCategory.map (fun c => cbcNumber c "Percent"))
  let computedTaxAmount :=
    taxPercent.map (fun p => ((lineExtensionAmount.mul p).div (.fin 100)).toFixed2)
  let allowanceCharges := parseAllowanceCharges line
  let discountAmount :=
    allowanceCharges.foldl
      (fun sum c => if c.chargeIndicator then sum else sum.add c.amount.abs) (.fin 0)
  let chargeAmount :=
    allowanceCharges.foldl
      (fun sum c => if c.chargeIndicator then sum.add c.amount.abs else sum) (.fin 0)
  { id := cbcText line "ID"
    description :=
      match item with
      | some i => cbcText i "Description"
      | none => ""
    quantity := cbcNumber line qtyTag
    unitCode := (qtyEl.bind (fun el => el.getAttribute "unitCode")).getD ""
    unitPrice :=
      match price with
      | some p => cbcNumber p "PriceAmount"
      | none => .fin 0
    lineExtensionAmount := lineExtensionAmount
    taxPercent := taxPercent
    taxAmount :=
      taxAmountFromLineTotal.or
        (if lineTaxSubtotals.length > 0 then some taxAmountFromSubtotals
         else computedTaxAmount)
    taxCategoryId :=
      (lineTaxSubtotals.head?.bind (·.taxCategoryId)).or
        (taxCategory.bind (fun c => strOpt (cbcText c "ID")))
    taxSchemeId :=
      (lineTaxSubtotals.head?.bind (·.taxSchemeId)).or (parseTaxSchemeId taxCategory)
    taxSubtotals := if lineTaxSubtotals.length > 0 then some lineTaxSubtotals else none
    allowanceCharges := if allowanceCharges.length > 0 then some allowanceCharges else none
    discountAmount := if (JsNum.fin 0).ltb discountAmount then some discountAmount else none
    chargeAmount := if (JsNum.fin 0).ltb chargeAmount then some chargeAmount else none
    itemName := item.bind (fun i => strOpt (cbcText i "Name"))
    sellersItemId := sellersId.bind (fun s => strOpt (cbcText s "ID"))
    buyersItemId := buyersId.bind (fun b => strOpt (cbcText b "ID")) }

/-- `parseLines` from `parser.ts`. -/
def parseLines (root : XmlNode) (isCreditNote : Bool) : List UblLine :=
  let lineTag := if isCreditNote then "CreditNoteLine" else "InvoiceLine"
  (cacElements root lineTag).map (parseLine isCreditNote)

/-- `parseMonetaryTotal` from `parser.ts`. -/
def parseMonetaryTotal (root : XmlNode) : UblMonetaryTotal :=
  match cacDirectElement root "LegalMonetaryTotal" with
  | none =>
      { lineExtensionAmount := .fin 0, taxExclusiveAmount := .fin 0,
        taxInclusiveAmount := .fin 0, allowanceTotalAmount := none,
        chargeTotalAmount := none, prepaidAmount := none,
        payableRoundingAmount := none, payableAmount := .fin 0 }
  | some total =>
      { lineExtensionAmount := cbcNumber total "LineExtensionAmount"
        taxExclusiveAmount := cbcNumber total "TaxExclusiveAmount"
        taxInclusiveAmount := cbcNumber total "TaxInclusiveAmount"
        allowanceTotalAmount := numOrUndef (cbcNumber total "AllowanceTotalAmount")
        chargeTotalAmount := numOrUndef (cbcNumber total "ChargeTotalAmount")
        prepaidAmount := numOrUndef (cbcNumber total "PrepaidAmount")
        payableRoundingAmount := numOrUndef (cbcNumber total "PayableRoundingAmount")
        payableAmount := cbcNumber total "PayableAmount" }

/-- `parsePaymentMeansElement` from `parser.ts`. -/
def parsePaymentMeansElement (pm : XmlNode) : UblPaymentMeans :=
  let account := cacElement pm "PayeeFinancialAccount"
  let branch := account.bind (fun a => cacElement a "FinancialInstitutionBranch")
  let paymentMeansCodeEl := (getElementsByTagNameNS pm CBC_NS "PaymentMeansCode").head?
  { code := cbcText pm "PaymentMeansCode"
    codeName := (paymentMeansCodeEl.bind (fun el => el.getAttribute "name")).bind strOpt
    paymentId := strOpt (cbcText pm "PaymentID")
    iban := account.bind (fun a => strOpt (cbcText a "ID"))
    bic := branch.bind (fun b => strOpt (cbcText b "ID"))
    accountName := account.bind (fun a => strOpt (cbcText a "Name")) }

/-- `parsePaymentMeansList` from `parser.ts`. -/
def parsePaymentMeansList (root : XmlNode) : Option (List UblPaymentMeans) :=
  let list := (cacElements root "PaymentMeans").map parsePaymentMeansElement
  if list.length > 0 then some list else none

/-- `parseInvoicePeriod` from `parser.ts`. -/
def parseInvoicePeriod (root : XmlNode) : Option UblInvoicePeriod :=
  match cacElement root "InvoicePeriod" with
  | none => none
  | some period =>
      let start := cbcText period "StartDate"
      let endDate := cbcText period "EndDate"
      if start = "" ∧ endDate = "" then none
      else some { startDate := strOpt start, endDate := strOpt endDate,
                  descriptionCode := strOpt (cbcText period "DescriptionCode") }

/-- `parseDelivery` from `parser.ts`. -/
def parseDelivery (root : XmlNode) : Option UblDelivery :=
  match cacElement root "Delivery" with
  | none => none
  | some delivery =>
      let actualDeliveryDate := strOpt (cbcText delivery "ActualDeliveryDate")
      let deliveryLocation := cacElement delivery "DeliveryLocation"
      let address :=
        parseAddressFromElement (deliveryLocation.bind (fun l => cacElement l "Address"))
      match actualDeliveryDate, address with
      | none, none => none
      | a, b => some { actualDeliveryDate := a, address := b }

/-- `parsePaymentTermsNote` from `parser.ts`. -/
def parsePaymentTermsNote (root : XmlNode) : Option String :=
  match cacElement root "PaymentTerms" with
  | none => none
  | some paymentTerms => strOpt (cbcText paymentTerms "Note")

/-- `parseNotes` from `parser.ts`.  The source scans all CBC `Note`
descendants and keeps those whose parent is the root; in a tree the elements
kept, in document order, are exactly the direct-child `Note` elements. -/
def parseNotes (root : XmlNode) : Option String :=
  let notes := (childElementsByTagNs root CBC_NS "Note").filterMap
    (fun el => strOpt (jsTrim el.textContent))
  if notes.length > 0 then some (String.intercalate "\n" notes) else none

/-- `parseAttachments` from `parser.ts`. -/
def parseAttachments (root : XmlNode) : Option (List UblAttachment) :=
  let refs := cacElements root "AdditionalDocumentReference"
  let attachments := refs.filterMap (fun ref =>
    match cacElement ref "Attachment" with
    | none => none
    | some attachment =>
        match (getElementsByTagNameNS attachment CBC_NS "EmbeddedDocumentBinaryObject").head? with
        | none => none
        | some binaryEl =>
            let content := jsTrim binaryEl.textContent
            if content = "" then none
            else some ({
              id := cbcText ref "ID"
              filename := (binaryEl.getAttribute "filename").bind strOpt
              mimeCode := (binaryEl.getAttribute "mimeCode").bind strOpt
              description := strOpt (cbcText ref "DocumentDescription")
              base64Content := content } : UblAttachment))
  if attachments.length > 0 then some attachments else none

-- --- Main parser (parser.ts) ---

/-- Result of running the DOM parser on the input string, abstracting the
third-party XML library: `hasParserError` models
`doc.getElementsByTagName("parsererror").length > 0`, and `root` models
`doc.documentElement` (`none` for a document without a root element, whose
member access throws and is caught by `parseUblInvoice`). -/
structure DomDocument where
  hasParserError : Bool
  root : Option XmlNode

/-- Outcome of `parser.parseFromString`: either the underlying XML parser
threw an exception, or it produced a document. -/
inductive DomOutcome where
  | exn
  | parsed (d : DomDocument)

/-- `parseUblInvoice` from `parser.ts`, over the DOM-parse outcome. -/
def parseUblInvoice : DomOutcome → Option UblInvoice
  | .exn => none
  | .parsed d =>
      if d.hasParserError then none
      else
        match d.root with
        | none => none
        | some root =>
            let localName := root.tagOf
            let kind : Option (UblDocumentType × Bool) :=
              if localName = "Invoice" then some (.invoice, false)
              else if localName = "CreditNote" then some (.creditNote, true)
              else none
            match kind with
            | none => none
            | some (documentType, isCreditNote) =>
                let id := cbcText root "ID"
                if id = "" then none
                else
                  let paymentMeansList := parsePaymentMeansList root
                  let orderReference := cacElement root "OrderReference"
                  let contractReference := cacElement root "ContractDocumentReference"
                  let projectReference := cacElement root "ProjectReference"
                  some {
                    documentType
                    customizationId := strOpt (cbcText root "CustomizationID")
                    profileId := strOpt (cbcText root "ProfileID")
                    id
                    invoiceTypeCode := strOpt (cbcText root "InvoiceTypeCode")
                    issueDate := cbcText root "IssueDate"
                    dueDate := strOpt (cbcText root "DueDate")
                    taxPointDate := strOpt (cbcText root "TaxPointDate")
                    currency := cbcText root "DocumentCurrencyCode"
                    buyerReference := strOpt (cbcText root "BuyerReference")
                    orderReference := orderReference.map (fun o => cbcText o "ID")
                    salesOrderId := orderReference.bind (fun o => strOpt (cbcText o "SalesOrderID"))
                    contractReference := contractReference.map (fun c => cbcText c "ID")
                    projectReference := projectReference.map (fun p => cbcText p "ID")
                    seller := parseParty root "AccountingSupplierParty"
                    buyer := parseParty root "AccountingCustomerParty"
                    delivery := parseDelivery root
                    lines := parseLines root isCreditNote
                    taxSubtotals := parseTaxSubtotals root
                    monetaryTotal := parseMonetaryTotal root
                    paymentMeans := paymentMeansList.bind List.head?
                    paymentMeansList := paymentMeansList
                    invoicePeriod := parseInvoicePeriod root
                    note := parseNotes root
                    paymentTermsNote := parsePaymentTermsNote root
                    attachments := parseAttachments root
                    allowanceCharges := parseAllowanceCharges root }

-- --- Utility helpers (normalize.ts) ---

/-- `normalizeText` from `normalize.ts`: absent, empty or whitespace-only
input, and the placeholders `NA` / `N/A` (case-insensitive) become `none`;
any other input is kept trimmed. -/
def normalizeText : Option String → Option String
  | none => none
  | some value =>
      if value = "" then none
      else
        let trimmed := jsTrim value
        if trimmed = "" then none
        else
          let upper := jsToUpper trimmed
          if upper = "NA" ∨ upper = "N/A" then none else some trimmed

/-- `toNumberOrNull` from `normalize.ts`: a missing or non-finite number
becomes `null`; a finite number is kept (as its exact rational value). -/
def toNumberOrNull : Option JsNum → Option ℚ
  | some (.fin q) => some q
  | _ => none

/-- `normalizeCurrency` from `normalize.ts`. -/
def normalizeCurrency : Option String → Option String
  | none => none
  | some value =>
      if value = "" then none
      else
        let trimmed := jsTrim value
        if trimmed = "" then none else some (jsToUpper trimmed)

/-- Validity of a calendar date in the proleptic Gregorian calendar. -/
def isValidDate (y m d : ℕ) : Bool :=
  let leap := (y % 4 = 0 ∧ y % 100 ≠ 0) ∨ y % 400 = 0
  let dim : ℕ :=
    if m = 2 then (if leap then 29 else 28)
    else if m = 4 ∨ m = 6 ∨ m = 9 ∨ m = 11 then 30
    else 31
  decide (1 ≤ m ∧ m ≤ 12 ∧ 1 ≤ d ∧ d ≤ dim)

/-- `parseDate` from `normalize.ts`.  The host date parser is modelled on
the schema-native `YYYY-MM-DD` calendar-date form that UBL date fields
carry: a valid ISO calendar date parses as UTC midnight and round-trips
unchanged through `toISOString().slice(0, 10)`; anything else is NaN. -/
def parseDate : Option String → Option String
  | none => none
  | some value =>
      if value = "" then none
      else
        let trimmed := jsTrim value
        if trimmed = "" then none
        else
          match trimmed.data with
          | [y1, y2, y3, y4, '-', m1, m2, '-', d1, d2] =>
              if ([y1, y2, y3, y4, m1, m2, d1, d2].all Char.isDigit) then
                if isValidDate (digitsToNat [y1, y2, y3, y4])
                    (digitsToNat [m1, m2]) (digitsToNat [d1, d2]) then
                  some trimmed
                else none
              else none
          | _ => none

-- --- Address helpers (normalize.ts) ---

/-- The `filter`/`join(" ")` pattern used on address parts in
`normalize.ts`: keep the parts that are present and non-blank, then join
them with single spaces. -/
def joinNonEmptyParts (parts : List (Option String)) : String :=
  String.intercalate " " ((parts.filterMap id).filter (fun part => jsTrim part != ""))

/-- `addressToString` from `normalize.ts`. -/
def addressToString : Option UblAddress → Option String
  | none => none
  | some address =>
      let street := joinNonEmptyParts [some address.street, address.additionalStreet]
      let cityLine := joinNonEmptyParts [some address.postalZone, some address.city]
      let countryLine :=
        joinNonEmptyParts [address.countrySubentity, some address.countryCode]
      let lines := [street, cityLine, countryLine].filter (fun line => line != "")
      if lines.length > 0 then some (String.intercalate "\n" lines) else none

/-- The structured-address record produced by `addressToStructured`. -/
structure DtoAddressStructured where
  line1 : Option String
  line2 : Option String
  city : Option String
  state : Option String
  postal_code : Option String
  country : Option String
deriving DecidableEq

/-- `addressToStructured` from `normalize.ts`. -/
def addressToStructured : Option UblAddress → Option DtoAddressStructured
  | none => none
  | some address =>
      let line1 := joinNonEmptyParts [some address.street, address.additionalStreet]
      let result : DtoAddressStructured :=
        { line1 := normalizeText (some line1)
          line2 := none
          city := normalizeText (some address.city)
          state := normalizeText address.countrySubentity
          postal_code := normalizeText (some address.postalZone)
          country := normalizeText (some address.countryCode) }
      let hasValue := result.line1.isSome || result.line2.isSome || result.city.isSome ||
        result.state.isSome || result.postal_code.isSome || result.country.isSome
      if hasValue then some result else none

-- --- Attachment and charge sanitizers (normalize.ts) ---

/-- `base64ByteLength` from `normalize.ts`: strip all whitespace, then
`Math.floor(length * 3 / 4)` minus the padding adjustment. -/
def base64ByteLength (content : String) : ℤ :=
  let sanitized := stripWhitespace content
  if sanitized = "" then 0
  else
    let paddingLength : ℤ :=
      if jsEndsWith sanitized "==" then 2
      else if jsEndsWith sanitized "=" then 1
      else 0
    ((sanitized.length * 3) / 4 : ℕ) - paddingLength

/-- The sanitized attachment record built by `sanitizeAttachments`:
metadata plus a computed byte size, with no payload field. -/
structure SanitizedAttachment where
  id : Option String
  filename : Option String
  mime_code : Option String
  description : Option String
  size_bytes : ℤ
deriving DecidableEq

/-- The per-attachment mapping closure inside `sanitizeAttachments`. -/
def sanitizeAttachment (attachment : UblAttachment) : SanitizedAttachment :=
  { id := normalizeText (some attachment.id)
    filename := normalizeText attachment.filename
    mime_code := normalizeText attachment.mimeCode
    description := normalizeText attachment.description
    size_bytes := base64ByteLength attachment.base64Content }

/-- `sanitizeAttachments` from `normalize.ts`. -/
def sanitizeAttachments (attachments : Option (List UblAttachment)) : List SanitizedAttachment :=
  (attachments.getD []).map sanitizeAttachment

/-- The sanitized allowance/charge record built by
`sanitizeAllowanceCharges`. -/
structure SanitizedAllowanceCharge where
  charge_indicator : Bool
  amount : Option ℚ
  base_amount : Option ℚ
  multiplier_factor_numeric : Option ℚ
  reason : Option String
  reason_code : Option String
  tax_percent : Option ℚ
  tax_category_id : Option String
  tax_scheme_id : Option String
deriving DecidableEq

/-- `sanitizeAllowanceCharges` from `normalize.ts`. -/
def sanitizeAllowanceCharges (charges : Option (List UblAllowanceCharge)) :
    List SanitizedAllowanceCharge :=
  (charges.getD []).map (fun charge =>
    { charge_indicator := charge.chargeIndicator
      amount := toNumberOrNull (some charge.amount)
      base_amount := toNumberOrNull charge.baseAmount
      multiplier_factor_numeric := toNumberOrNull charge.multiplierFactorNumeric
      reason := normalizeText charge.reason
      reason_code := normalizeText charge.reasonCode
      tax_percent := toNumberOrNull charge.taxPercent
      tax_category_id := normalizeText charge.taxCategoryId
      tax_scheme_id := normalizeText charge.taxSchemeId })

/-- The raw-echo document: `{ ...ubl, attachments: sanitizeAttachments(...) }`,
every field of the document model except that the attachment list is
replaced by its sanitized form. -/
structure SanitizedUblInvoice where
  documentType : UblDocumentType
  customizationId : Option String
  profileId : Option String
  id : String
  invoiceTypeCode : Option String
  issueDate : String
  dueDate : Option String
  taxPointDate : Option String
  currency : String
  buyerReference : Option String
  orderReference : Option String
  salesOrderId : Option String
  contractReference : Option String
  projectReference : Option String
  seller : UblParty
  buyer : UblParty
  delivery : Option UblDelivery
  lines : List UblLine
  taxSubtotals : List UblTaxSubtotal
  monetaryTotal : UblMonetaryTotal
  paymentMeans : Option UblPaymentMeans
  paymentMeansList : Option (List UblPaymentMeans)
  invoicePeriod : Option UblInvoicePeriod
  note : Option String
  paymentTermsNote : Option String
  attachments : List SanitizedAttachment
  allowanceCharges : List UblAllowanceCharge
deriving DecidableEq

/-- `sanitizeRawUbl` from `normalize.ts`. -/
def sanitizeRawUbl (ubl : UblInvoice) : SanitizedUblInvoice :=
  { documentType := ubl.documentType
    customizationId := ubl.customizationId
    profileId := ubl.profileId
    id := ubl.id
    invoiceTypeCode := ubl.invoiceTypeCode
    issueDate := ubl.issueDate
    dueDate := ubl.dueDate
    taxPointDate := ubl.taxPointDate
    currency := ubl.currency
    buyerReference := ubl.buyerReference
    orderReference := ubl.orderReference
    salesOrderId := ubl.salesOrderId
    contractReference := ubl.contractReference
    projectReference := ubl.projectReference
    seller := ubl.seller
    buyer := ubl.buyer
    delivery := ubl.delivery
    lines := ubl.lines
    taxSubtotals := ubl.taxSubtotals
    monetaryTotal := ubl.monetaryTotal
    paymentMeans := ubl.paymentMeans
    paymentMeansList := ubl.paymentMeansList
    invoicePeriod := ubl.invoicePeriod
    note := ubl.note
    paymentTermsNote := ubl.paymentTermsNote
    attachments := sanitizeAttachments ubl.attachments
    allowanceCharges := ubl.allowanceCharges }

-- --- Summation helpers (normalize.ts) ---

/-- `sumTaxTotal` from `normalize.ts`. -/
def sumTaxTotal (ubl : UblInvoice) : JsNum :=
  let subtotalSum := ubl.taxSubtotals.foldl (fun sum s => sum.add s.taxAmount) (.fin 0)
  if 0 < ubl.taxSubtotals.length ∧ subtotalSum.isFinite = true then subtotalSum
  else ubl.monetaryTotal.taxInclusiveAmount.sub ubl.monetaryTotal.taxExclusiveAmount

/-- `sumAllowanceChargesByType` from `normalize.ts`. -/
def sumAllowanceChargesByType (charges : Option (List UblAllowanceCharge))
    (chargeIndicator : Bool) : JsNum :=
  (charges.getD []).foldl
    (fun sum charge =>
      if charge.chargeIndicator ≠ chargeIndicator then sum
      else sum.add charge.amount.abs)
    (.fin 0)

-- --- Normalized DTO types (types.ts / normalize.ts object shapes) ---

/-- The payment-means record shape used in the DTO `extra` block. -/
structure DtoPaymentMeans where
  code : Option String
  code_name : Option String
  payment_id : Option String
  iban : Option String
  bic : Option String
  account_name : Option String
deriving DecidableEq

/-- The delivery record shape used in the DTO `extra` block. -/
structure DtoDelivery where
  actual_delivery_date : Option String
  address : Option DtoAddressStructured
deriving DecidableEq

/-- The per-party extension record used in the DTO `extra` block. -/
structure DtoPartyExtra where
  endpoint_id : Option String
  endpoint_scheme_id : Option String
  registration_name : Option String
  company_legal_form : Option String
  tax_scheme_id : Option String
  contact_name : Option String
  contact_phone : Option String
  contact_email : Option String
deriving DecidableEq

/-- The invoice-level `extra` map of the DTO (a fixed-shape object literal
in `normalize.ts`). -/
structure InvoiceExtra where
  document_type : UblDocumentType
  customization_id : Option String
  profile_id : Option String
  invoice_type_code : Option String
  buyer_reference : Option String
  order_reference_id : Option String
  sales_order_id : Option String
  contract_reference : Option String
  project_reference : Option String
  tax_point_date : Option String
  invoice_period : Option UblInvoicePeriod
  note : Option String
  payment_means : Option DtoPaymentMeans
  payment_means_list : List DtoPaymentMeans
  delivery : Option DtoDelivery
  supplier : DtoPartyExtra
  receiver : DtoPartyExtra
  supplier_address_structured : Option DtoAddressStructured
  receiver_address_structured : Option DtoAddressStructured
  tax_subtotals : List UblTaxSubtotal
  allowance_charges : List SanitizedAllowanceCharge
  attachments : List SanitizedAttachment
deriving DecidableEq

/-- The per-line `extra` map of the DTO. -/
structure LineItemExtra where
  ubl_line_id : Option String
  item_name : Option String
  sellers_item_id : Option String
  buyers_item_id : Option String
  tax_category_id : Option String
  tax_scheme_id : Option String
  tax_subtotals : List UblTaxSubtotal
  allowance_charges : List SanitizedAllowanceCharge
  charge_amount : Option ℚ
deriving DecidableEq

/-- One element of `line_items` in `InvoiceExtractionDTO`. -/
structure DtoLineItem where
  description : String
  quantity : Option ℚ
  unit : Option String
  unit_price : Option ℚ
  amount : Option ℚ
  tax_amount : Option ℚ
  tax_rate : Option ℚ
  product_code : Option String
  discount_amount : Option ℚ
  extra : LineItemExtra
deriving DecidableEq

/-- The `supplier` block of the DTO invoice. -/
structure DtoSupplier where
  name : Option String
  address : Option String
  tax_id : Option String
  iban : Option String
  bic : Option String
deriving DecidableEq

/-- The `receiver` block of the DTO invoice. -/
structure DtoReceiver where
  name : Option String
  address : Option String
  tax_id : Option String
deriving DecidableEq

/-- The `invoice` block of `InvoiceExtractionDTO`. -/
structure DtoInvoice where
  invoice_number : Option String
  invoice_date : Option String
  due_date : Option String
  currency : Option String
  subtotal : Option ℚ
  tax_total : Option ℚ
  total : Option ℚ
  amount_due : Option ℚ
  amount_paid : Option ℚ
  discount_total : Option ℚ
  shipping_total : Option ℚ
  payment_terms : Option String
  po_number : Option String
  supplier : DtoSupplier
  receiver : DtoReceiver
  extra : InvoiceExtra
deriving DecidableEq

/-- The static confidence block of the DTO. -/
structure DtoConfidence where
  overall : Option ℚ
  fields : List (String × ℚ)
deriving DecidableEq

/-- `InvoiceExtractionDTO` from `types.ts`. -/
structure InvoiceExtractionDTO where
  provider : String
  document_id : String
  invoice : DtoInvoice
  line_items : List DtoLineItem
  confidence : DtoConfidence
deriving DecidableEq

/-- The raw-echo payload `{ format: "ubl_xml", invoice: sanitizeRawUbl(ubl) }`. -/
structure RawPayload where
  format : String
  invoice : SanitizedUblInvoice
deriving DecidableEq

/-- The pair returned by `normalizeUblResponse`. -/
structure NormalizeResult where
  extracted : InvoiceExtractionDTO
  rawPayload : RawPayload
deriving DecidableEq

-- --- The normalizer (normalize.ts) ---

/-- The payment-means object literal repeated in `normalize.ts` for the
`payment_means` and `payment_means_list` extra fields. -/
def dtoPaymentMeans (item : UblPaymentMeans) : DtoPaymentMeans :=
  { code := normalizeText (some item.code)
    code_name := normalizeText item.codeName
    payment_id := normalizeText item.paymentId
    iban := normalizeText item.iban
    bic := normalizeText item.bic
    account_name := normalizeText item.accountName }

/-- Body of `normalizeUblResponse` after the successful parse: build the
flat DTO and the sanitized raw echo from the document model. -/
def normalizeUbl (ubl : UblInvoice) (documentId : String) : NormalizeResult :=
  let subtotal :=
    (toNumberOrNull (some ubl.monetaryTotal.taxExclusiveAmount)).or
      (toNumberOrNull (some ubl.monetaryTotal.lineExtensionAmount))
  let total :=
    (toNumberOrNull (some ubl.monetaryTotal.taxInclusiveAmount)).or
      (toNumberOrNull (some ubl.monetaryTotal.payableAmount))
  let amountDue := toNumberOrNull (some ubl.monetaryTotal.payableAmount)
  let prepaidAmount := toNumberOrNull ubl.monetaryTotal.prepaidAmount
  let amountPaid :=
    prepaidAmount.or
      (match total, amountDue with
       | some t, some a => if a < t then some (t - a) else none
       | _, _ => none)
  let taxTotal := toNumberOrNull (some (sumTaxTotal ubl))
  let headerDiscountTotal := sumAllowanceChargesByType (some ubl.allowanceCharges) false
  let headerChargeTotal := sumAllowanceChargesByType (some ubl.allowanceCharges) true
  let currency := normalizeCurrency (some ubl.currency)
  let paymentTerms := normalizeText ubl.paymentTermsNote
  let poNumber := (normalizeText ubl.orderReference).or (normalizeText ubl.salesOrderId)
  let lineItems : List DtoLineItem := ubl.lines.map (fun line =>
    { description :=
        ((normalizeText (some line.description)).or (normalizeText line.itemName)).getD
          "Line item"
      quantity := toNumberOrNull (some line.quantity)
      unit := normalizeText (some line.unitCode)
      unit_price := toNumberOrNull (some line.unitPrice)
      amount := toNumberOrNull (some line.lineExtensionAmount)
      tax_amount := toNumberOrNull line.taxAmount
      tax_rate := toNumberOrNull line.taxPercent
      product_code := (normalizeText line.sellersItemId).or (normalizeText line.buyersItemId)
      discount_amount := toNumberOrNull line.discountAmount
      extra :=
        { ubl_line_id := normalizeText (some line.id)
          item_name := normalizeText line.itemName
          sellers_item_id := normalizeText line.sellersItemId
          buyers_item_id := normalizeText line.buyersItemId
          tax_category_id := normalizeText line.taxCategoryId
          tax_scheme_id := normalizeText line.taxSchemeId
          tax_subtotals := line.taxSubtotals.getD []
          allowance_charges := sanitizeAllowanceCharges line.allowanceCharges
          charge_amount := toNumberOrNull line.chargeAmount } })
  let supplierAddress := addressToString ubl.seller.address
  let receiverAddress := addressToString ubl.buyer.address
  let supplierAddressStructured := addressToStructured ubl.seller.address
  let receiverAddressStructured := addressToStructured ubl.buyer.address
  let attachmentMetadata := sanitizeAttachments ubl.attachments
  let paymentMeansList : List UblPaymentMeans :=
    match ubl.paymentMeansList with
    | some l =>
        if 0 < l.length then l
        else
          match ubl.paymentMeans with
          | some pm => [pm]
          | none => []
    | none =>
        match ubl.paymentMeans with
        | some pm => [pm]
        | none => []
  let extracted : InvoiceExtractionDTO :=
    { provider := "ubl_xml"
      document_id := documentId
      invoice :=
        { invoice_number := normalizeText (some ubl.id)
          invoice_date := parseDate (some ubl.issueDate)
          due_date := parseDate ubl.dueDate
          currency := currency
          subtotal := subtotal
          tax_total := taxTotal
          total := total
          amount_due := amountDue
          amount_paid := amountPaid
          discount_total :=
            (toNumberOrNull ubl.monetaryTotal.allowanceTotalAmount).or
              (if 0 < ubl.allowanceCharges.length then
                toNumberOrNull (some headerDiscountTotal)
               else none)
          shipping_total :=
            (toNumberOrNull ubl.monetaryTotal.chargeTotalAmount).or
              (if 0 < ubl.allowanceCharges.length then
                toNumberOrNull (some headerChargeTotal)
               else none)
          payment_terms := paymentTerms
          po_number := poNumber
          supplier :=
            { name :=
                (normalizeText (some ubl.seller.name)).or
                  (normalizeText ubl.seller.registrationName)
              address := supplierAddress
              tax_id := (normalizeText ubl.seller.vatId).or (normalizeText ubl.seller.companyId)
              iban := normalizeText (ubl.paymentMeans.bind (·.iban))
              bic := normalizeText (ubl.paymentMeans.bind (·.bic)) }
          receiver :=
            { name :=
                (normalizeText (some ubl.buyer.name)).or
                  (normalizeText ubl.buyer.registrationName)
              address := receiverAddress
              tax_id := (normalizeText ubl.buyer.vatId).or (normalizeText ubl.buyer.companyId) }
          extra :=
            { document_type := ubl.documentType
              customization_id := normalizeText ubl.customizationId
              profile_id := normalizeText ubl.profileId
              invoice_type_code := normalizeText ubl.invoiceTypeCode
              buyer_reference := normalizeText ubl.buyerReference
              order_reference_id := normalizeText ubl.orderReference
              sales_order_id := normalizeText ubl.salesOrderId
              contract_reference := normalizeText ubl.contractReference
              project_reference := normalizeText ubl.projectReference
              tax_point_date := parseDate ubl.taxPointDate
              invoice_period := ubl.invoicePeriod
              note := normalizeText ubl.note
              payment_means := ubl.paymentMeans.map dtoPaymentMeans
              payment_means_list := paymentMeansList.map dtoPaymentMeans
              delivery := ubl.delivery.map (fun d =>
                { actual_delivery_date := parseDate d.actualDeliveryDate
                  address := addressToStructured d.address })
              supplier :=
                { endpoint_id := normalizeText ubl.seller.endpointId
                  endpoint_scheme_id := normalizeText ubl.seller.endpointSchemeId
                  registration_name := normalizeText ubl.seller.registrationName
                  company_legal_form := normalizeText ubl.seller.companyLegalForm
                  tax_scheme_id := normalizeText ubl.seller.taxSchemeId
                  contact_name := normalizeText (ubl.seller.contact.bind (·.name))
                  contact_phone := normalizeText (ubl.seller.contact.bind (·.phone))
                  contact_email := normalizeText (ubl.seller.contact.bind (·.email)) }
              receiver :=
                { endpoint_id := normalizeText ubl.buyer.endpointId
                  endpoint_scheme_id := normalizeText ubl.buyer.endpointSchemeId
                  registration_name := normalizeText ubl.buyer.registrationName
                  company_legal_form := normalizeText ubl.buyer.companyLegalForm
                  tax_scheme_id := normalizeText ubl.buyer.taxSchemeId
                  contact_name := normalizeText (ubl.buyer.contact.bind (·.name))
                  contact_phone := normalizeText (ubl.buyer.contact.bind (·.phone))
                  contact_email := normalizeText (ubl.buyer.contact.bind (·.email)) }
              supplier_address_structured := supplierAddressStructured
              receiver_address_structured := receiverAddressStructured
              tax_subtotals := ubl.taxSubtotals
              allowance_charges := sanitizeAllowanceCharges (some ubl.allowanceCharges)
              attachments := attachmentMetadata } }
      line_items := lineItems
      confidence :=
        { overall := some 1
          fields :=
            [("invoice_id", 1), ("invoice_date", 1), ("due_date", 1),
             ("total_amount", 1), ("supplier_name", 1)] } }
  { extracted := extracted
    rawPayload := { format := "ubl_xml", invoice := sanitizeRawUbl ubl } }

/-- `normalizeUblResponse` from `normalize.ts`, over the DOM-parse outcome
of the XML string: the thrown `Error` is modelled as `Except.error` with the
error message. -/
def normalizeUblResponse (xml : DomOutcome) (documentId : String) :
    Except String NormalizeResult :=
  match parseUblInvoice xml with
  | none => .error "Failed to parse UBL invoice XML"
  | some ubl => .ok (normalizeUbl ubl documentId)

-- --- Builders and example inputs ---

/-- The UBL 2 Invoice document namespace. -/
def INV_NS : String := "urn:oasis:names:specification:ubl:schema:xsd:Invoice-2"

/-- A CBC leaf element with text content. -/
def cbcEl (tag txt : String) : XmlNode := .elem CBC_NS tag [] (.ofList [.text txt])

/-- A CBC leaf element with attributes and text content. -/
def cbcElA (tag : String) (attrs : List (String × String)) (txt : String) : XmlNode :=
  .elem CBC_NS tag attrs (.ofList [.text txt])

/-- A CAC aggregate element. -/
def cacEl (tag : String) (children : List XmlNode) : XmlNode :=
  .elem CAC_NS tag [] (.ofList children)

/-- Append one child node to an element (text nodes are unchanged). -/
def appendChild (n c : XmlNode) : XmlNode :=
  match n with
  | .elem ns tag attrs cs => .elem ns tag attrs (.ofList (cs.toList ++ [c]))
  | .text s => .text s

/-- The failure condition of `parseUblInvoice`: the underlying parser threw,
the parsed document reports a parser error, there is no root element, the
root's local name is neither `Invoice` nor `CreditNote`, or the ID read from
the root is empty. -/
def parseFailure : DomOutcome → Prop
  | .exn => True
  | .parsed d =>
      d.hasParserError = true ∨ d.root = none ∨
        (∃ root, d.root = some root ∧
          ((root.tagOf ≠ "Invoice" ∧ root.tagOf ≠ "CreditNote") ∨ cbcText root "ID" = ""))

/-- Minimal invoice document of end-to-end scenario A of the specification:
one line, no tax subtotal, tax-exclusive 100, tax-inclusive 121. -/
def scenarioARoot : XmlNode :=
  .elem INV_NS "Invoice" []
    (.ofList
    [ cbcEl "ID" "INV-1",
      cbcEl "IssueDate" "2026-02-25",
      cbcEl "DocumentCurrencyCode" "EUR",
      cacEl "AccountingSupplierParty" [cacEl "Party" [cacEl "PartyName" [cbcEl "Name" "Acme"]]],
      cacEl "AccountingCustomerParty" [cacEl "Party" [cacEl "PartyName" [cbcEl "Name" "Buyer"]]],
      cacEl "LegalMonetaryTotal"
        [ cbcEl "LineExtensionAmount" "100",
          cbcEl "TaxExclusiveAmount" "100",
          cbcEl "TaxInclusiveAmount" "121",
          cbcEl "PayableAmount" "121" ],
      cacEl "InvoiceLine"
        [ cbcEl "ID" "1",
          cbcEl "InvoicedQuantity" "2",
          cbcEl "LineExtensionAmount" "100",
          cacEl "Item" [cbcEl "Description" "Consulting"],
          cacEl "Price" [cbcEl "PriceAmount" "50"] ] ])

/-- Scenario A as a DOM-parse outcome. -/
def scenarioA : DomOutcome := .parsed ⟨false, some scenarioARoot⟩

/-- A line with an explicit TaxAmount of 5 on its direct-child TaxTotal AND
a 21 percent rate: the explicit amount disagrees with percent times base. -/
def lineExplicitTax : XmlNode :=
  cacEl "InvoiceLine"
    [ cbcEl "ID" "1",
      cbcEl "InvoicedQuantity" "1",
      cbcEl "LineExtensionAmount" "100",
      cacEl "TaxTotal"
        [ cbcEl "TaxAmount" "5",
          cacEl "TaxSubtotal"
            [ cbcEl "TaxableAmount" "100", cbcEl "TaxAmount" "21",
              cacEl "TaxCategory" [cbcEl "ID" "S", cbcEl "Percent" "21"] ] ],
      cacEl "Item"
        [ cbcEl "Name" "Widget", cacEl "ClassifiedTaxCategory" [cbcEl "Percent" "21"] ] ]

/-- A line whose TaxTotal has no direct TaxAmount but one TaxSubtotal. -/
def lineSubtotalTax : XmlNode :=
  cacEl "InvoiceLine"
    [ cbcEl "ID" "1",
      cbcEl "LineExtensionAmount" "90",
      cacEl "TaxTotal"
        [ cacEl "TaxSubtotal"
            [ cbcEl "TaxableAmount" "90", cbcEl "TaxAmount" "18.9",
              cacEl "TaxCategory" [cbcEl "ID" "S", cbcEl "Percent" "21"] ] ],
      cacEl "Item" [cbcEl "Name" "Widget"] ]

/-- A line with no TaxTotal but a classified tax category of 21 percent. -/
def lineComputedTax : XmlNode :=
  cacEl "InvoiceLine"
    [ cbcEl "ID" "1",
      cbcEl "LineExtensionAmount" "100",
      cacEl "Item"
        [ cbcEl "Name" "Widget", cacEl "ClassifiedTaxCategory" [cbcEl "Percent" "21"] ] ]

/-- A line with no tax information at all. -/
def lineNoTax : XmlNode :=
  cacEl "InvoiceLine"
    [ cbcEl "ID" "1", cbcEl "LineExtensionAmount" "100",
      cacEl "Item" [cbcEl "Name" "Widget"] ]

/-- A header-level TaxSubtotal element with the given tax amount. -/
def c6Sub (amt : String) : XmlNode :=
  cacEl "TaxSubtotal" [cbcEl "TaxableAmount" "100", cbcEl "TaxAmount" amt]

/-- A root with two direct-child TaxTotal aggregates holding three subtotals. -/
def c6Root : XmlNode :=
  .elem INV_NS "Invoice" []
    (.ofList [cacEl "TaxTotal" [c6Sub "1", c6Sub "2"], cacEl "TaxTotal" [c6Sub "3"]])

/-- An invoice line containing its own nested TaxTotal. -/
def c6NestedLine : XmlNode := cacEl "InvoiceLine" [cacEl "TaxTotal" [c6Sub "4"]]

/-- A LegalMonetaryTotal element carrying explicit zeros for all four
optional amounts. -/
def c9Total : XmlNode :=
  cacEl "LegalMonetaryTotal"
    [ cbcEl "TaxExclusiveAmount" "100",
      cbcEl "TaxInclusiveAmount" "121",
      cbcEl "PayableAmount" "121",
      cbcEl "AllowanceTotalAmount" "0",
      cbcEl "ChargeTotalAmount" "0",
      cbcEl "PrepaidAmount" "0",
      cbcEl "PayableRoundingAmount" "0" ]

/-- A root whose LegalMonetaryTotal carries explicit zeros for all four
optional amounts. -/
def c9Root : XmlNode :=
  .elem INV_NS "Invoice" [] (.ofList [cbcEl "ID" "INV-9", c9Total])

/-- A well-formed document whose root is not a UBL invoice. -/
def docBadRoot : DomOutcome :=
  .parsed ⟨false, some (.elem "http://example.com/ns" "html" [] (.ofList []))⟩

/-- An Invoice document with no ID anywhere. -/
def docNoId : DomOutcome :=
  .parsed ⟨false, some (.elem INV_NS "Invoice" [] (.ofList [cbcEl "IssueDate" "2026-01-01"]))⟩

/-- A minimal monetary total: tax-exclusive 100, tax-inclusive 121. -/
def sampleMonetaryTotal : UblMonetaryTotal :=
  { lineExtensionAmount := .fin 100, taxExclusiveAmount := .fin 100,
    taxInclusiveAmount := .fin 121, allowanceTotalAmount := none,
    chargeTotalAmount := none, prepaidAmount := none,
    payableRoundingAmount := none, payableAmount := .fin 121 }

/-- A minimal party. -/
def sampleParty : UblParty :=
  { name := "Acme", registrationName := none, companyLegalForm := none, vatId := none,
    taxSchemeId := none, companyId := none, endpointId := none, endpointSchemeId := none,
    address := none, contact := none }

/-- A minimal parsed document model for concrete normalizer runs. -/
def sampleUbl : UblInvoice :=
  { documentType := .invoice, customizationId := none, profileId := none, id := "INV-1",
    invoiceTypeCode := none, issueDate := "2026-02-25", dueDate := none, taxPointDate := none,
    currency := "EUR", buyerReference := none, orderReference := none, salesOrderId := none,
    contractReference := none, projectReference := none, seller := sampleParty,
    buyer := sampleParty, delivery := none, lines := [], taxSubtotals := [],
    monetaryTotal := sampleMonetaryTotal, paymentMeans := none, paymentMeansList := none,
    invoicePeriod := none, note := none, paymentTermsNote := none, attachments := none,
    allowanceCharges := [] }

/-- A header tax subtotal with the given tax amount. -/
def sampleSubtotal (amt : JsNum) : UblTaxSubtotal :=
  { taxableAmount := .fin 100, taxAmount := amt, taxPercent := .fin 21,
    taxCategoryId := none, taxSchemeId := none, taxExemptionReason := none }

/-- A header allowance/charge with the given indicator and amount. -/
def sampleCharge (indicator : Bool) (amt : JsNum) : UblAllowanceCharge :=
  { chargeIndicator := indicator, amount := amt, baseAmount := none,
    multiplierFactorNumeric := none, reason := none, reasonCode := none,
    taxPercent := none, taxCategoryId := none, taxSchemeId := none }

/-- An attachment whose base64 payload contains whitespace and one padding
character: the stripped content `SGVsbG8=` has length 8, so the decoded
size is 8 * 3 / 4 - 1 = 5 bytes. -/
def sampleAttachment : UblAttachment :=
  { id := "ATT-1", filename := some "invoice.pdf", mimeCode := some "application/pdf",
    description := none, base64Content := "SGVs bG8=" }

/-- The explicit tax amount of a line: the direct-child TaxAmount of the
line's own direct-child TaxTotal, if it parses. -/
def lineExplicitTaxAmount (line : XmlNode) : Option JsNum :=
  (cacDirectElement line "TaxTotal").bind (fun t => cbcDirectNumber t "TaxAmount")

/-- The line-level tax subtotals: those of the line's direct-child TaxTotal. -/
def lineTaxSubtotalsOf (line : XmlNode) : List UblTaxSubtotal :=
  match cacDirectElement line "TaxTotal" with
  | some t => parseTaxSubtotalsFromTaxTotal t
  | none => []

/-- The ClassifiedTaxCategory element of the line's item. -/
def lineClassifiedTaxCategory (line : XmlNode) : Option XmlNode :=
  (cacElement line "Item").bind (fun i => cacElement i "ClassifiedTaxCategory")

-- --- Helper lemmas ---

/-- The embedded rational addition agrees with the standard one. -/
theorem qAdd_eq (a b : ℚ) : qAdd a b = a + b := by
  rw [qAdd, Rat.divInt_eq_div]
  push_cast
  conv_rhs => rw [← Rat.num_div_den a, ← Rat.num_div_den b]
  rw [div_add_div _ _ (by exact_mod_cast a.den_nz) (by exact_mod_cast b.den_nz)]
  ring_nf

/-- The embedded rational subtraction agrees with the standard one. -/
theorem qSub_eq (a b : ℚ) : qSub a b = a - b := by
  rw [qSub, qAdd_eq, ← sub_eq_add_neg]

/-- The embedded rational multiplication agrees with the standard one. -/
theorem qMul_eq (a b : ℚ) : qMul a b = a * b := by
  rw [qMul, Rat.divInt_eq_div]
  push_cast
  conv_rhs => rw [← Rat.num_div_den a, ← Rat.num_div_den b]
  rw [div_mul_div_comm]

/-- The embedded rational division agrees with the standard one. -/
theorem qDiv_eq (a b : ℚ) : qDiv a b = a / b := by
  by_cases hb : b = 0
  · subst hb
    simp [qDiv, Rat.divInt_eq_div]
  · have hbn : ((b.num : ℤ) : ℚ) ≠ 0 := by
      exact_mod_cast Rat.num_ne_zero.mpr hb
    have had : ((a.den : ℚ)) ≠ 0 := by exact_mod_cast a.den_nz
    have hbd : ((b.den : ℚ)) ≠ 0 := by exact_mod_cast b.den_nz
    rw [qDiv, Rat.divInt_eq_div]
    push_cast
    conv_rhs => rw [← Rat.num_div_den a, ← Rat.num_div_den b]
    rw [div_div_div_comm]
    rw [div_div_eq_mul_div, div_mul_eq_mul_div, mul_comm]
    ring_nf

/-- The embedded rational absolute value agrees with the standard one. -/
theorem qAbs_eq (a : ℚ) : qAbs a = |a| := by
  rw [qAbs]
  split
  · next h =>
      rw [abs_of_neg]
      exact lt_of_not_ge fun hle => absurd (Rat.num_nonneg.mpr hle) (not_le.mpr h)
  · next h =>
      rw [abs_of_nonneg]
      exact Rat.num_nonneg.mp (not_lt.mp h)

/-- The embedded two-decimal rounding is the mathematical
`⌊a * 100 + 1/2⌋ / 100`. -/
theorem qRound2_eq (a : ℚ) : qRound2 a = ((⌊a * 100 + 1 / 2⌋ : ℤ) : ℚ) / 100 := by
  have hx : qAdd (qMul a 100) (Rat.divInt 1 2) = a * 100 + 1 / 2 := by
    rw [qAdd_eq, qMul_eq, Rat.divInt_eq_div]
    norm_num
  rw [qRound2, hx, Rat.divInt_eq_div]
  rw [Int.fdiv_eq_ediv _ (by positivity), ← Rat.floor_def]
  norm_num

/-- The DTO tax total is the (nullable) value of `sumTaxTotal`. -/
theorem normalizeUbl_tax_total (ubl : UblInvoice) (docId : String) :
    (normalizeUbl ubl docId).extracted.invoice.tax_total =
      toNumberOrNull (some (sumTaxTotal ubl)) := rfl

/-- The DTO discount total, written out from `normalizeUbl`. -/
theorem normalizeUbl_discount_total (ubl : UblInvoice) (docId : String) :
    (normalizeUbl ubl docId).extracted.invoice.discount_total =
      (toNumberOrNull ubl.monetaryTotal.allowanceTotalAmount).or
        (if 0 < ubl.allowanceCharges.length then
          toNumberOrNull (some (sumAllowanceChargesByType (some ubl.allowanceCharges) false))
         else none) := rfl

/-- The DTO shipping total, written out from `normalizeUbl`. -/
theorem normalizeUbl_shipping_total (ubl : UblInvoice) (docId : String) :
    (normalizeUbl ubl docId).extracted.invoice.shipping_total =
      (toNumberOrNull ubl.monetaryTotal.chargeTotalAmount).or
        (if 0 < ubl.allowanceCharges.length then
          toNumberOrNull (some (sumAllowanceChargesByType (some ubl.allowanceCharges) true))
         else none) := rfl

/-- The DTO amount paid, written out from `normalizeUbl`. -/
theorem normalizeUbl_amount_paid (ubl : UblInvoice) (docId : String) :
    (normalizeUbl ubl docId).extracted.invoice.amount_paid =
      (toNumberOrNull ubl.monetaryTotal.prepaidAmount).or
        (match
          (toNumberOrNull (some ubl.monetaryTotal.taxInclusiveAmount)).or
            (toNumberOrNull (some ubl.monetaryTotal.payableAmount)),
          toNumberOrNull (some ubl.monetaryTotal.payableAmount) with
         | some t, some a => if a < t then some (t - a) else none
         | _, _ => none) := rfl

/-- The attachment metadata in the DTO extra block is the sanitized list. -/
theorem normalizeUbl_extra_attachments (ubl : UblInvoice) (docId : String) :
    (normalizeUbl ubl docId).extracted.invoice.extra.attachments =
      sanitizeAttachments ubl.attachments := rfl

/-- The attachments of the raw echo are the sanitized list. -/
theorem normalizeUbl_raw_attachments (ubl : UblInvoice) (docId : String) :
    (normalizeUbl ubl docId).rawPayload.invoice.attachments =
      sanitizeAttachments ubl.attachments := rfl

/-- Converting a child list to a list and back is the identity. -/
theorem toList_ofList (l : List XmlNode) : (XmlNodeList.ofList l).toList = l := by
  induction l with
  | nil => rfl
  | cons h t ih => simp [XmlNodeList.ofList, XmlNodeList.toList, ih]

/-- The tax amount of a parsed line, written out from `parseLine`. -/
theorem parseLine_taxAmount (b : Bool) (line : XmlNode) :
    (parseLine b line).taxAmount =
      (lineExplicitTaxAmount line).or
        (if (lineTaxSubtotalsOf line).length > 0 then
          some ((lineTaxSubtotalsOf line).foldl
            (fun s u => JsNum.add s u.taxAmount) (.fin 0))
         else
          (((lineTaxSubtotalsOf line).head?.map (·.taxPercent)).or
              ((lineClassifiedTaxCategory line).map (fun c => cbcNumber c "Percent"))).map
            (fun p => (((cbcNumber line "LineExtensionAmount").mul p).div
              (JsNum.fin 100)).toFixed2)) := rfl

-- --- Claim theorems ---

/-- C1: for every parsed line, the tax amount is resolved by the first match
in this order: (1) an explicit TaxAmount read as a direct child of the
line's own direct-child TaxTotal; (2) else, if line-level TaxSubtotals
exist, the sum of their tax amounts; (3) else, if a tax percent is
determinable (with no subtotals, from the item's ClassifiedTaxCategory), the
computed amount round(lineExtensionAmount * taxPercent / 100) to two decimal
places; (4) else, absent.  In particular, branch (1) applies whether or not
a percent is also present, so an explicit amount wins even when it disagrees
with percent times base. -/
theorem line_tax_amount_resolution (b : Bool) (line : XmlNode) :
    (∀ x, lineExplicitTaxAmount line = some x → (parseLine b line).taxAmount = some x) ∧
    (lineExplicitTaxAmount line = none → lineTaxSubtotalsOf line ≠ [] →
      (parseLine b line).taxAmount =
        some ((lineTaxSubtotalsOf line).foldl (fun s u => JsNum.add s u.taxAmount) (.fin 0))) ∧
    (lineExplicitTaxAmount line = none → lineTaxSubtotalsOf line = [] →
      ∀ c, lineClassifiedTaxCategory line = some c →
        (parseLine b line).taxAmount =
          some ((((cbcNumber line "LineExtensionAmount").mul (cbcNumber c "Percent")).div
            (JsNum.fin 100)).toFixed2)) ∧
    (lineExplicitTaxAmount line = none → lineTaxSubtotalsOf line = [] →
      lineClassifiedTaxCategory line = none → (parseLine b line).taxAmount = none) := by
  refine ⟨fun x hx => ?_, fun hx hs => ?_, fun hx hs c hc => ?_, fun hx hs hc => ?_⟩
  · rw [parseLine_taxAmount b line, hx, Option.or]
  · rw [parseLine_taxAmount b line, hx, Option.or,
      if_pos (List.length_pos.mpr hs)]
  · rw [parseLine_taxAmount b line, hx, Option.or, hs, hc]
    rfl
  · rw [parseLine_taxAmount b line, hx, Option.or, hs, hc]
    rfl

/-- Witness for C1 at four concrete lines: an explicit amount of 5 wins over
the 21-percent rate (tie-break); a lone subtotal of 18.9 is summed; a bare
21-percent category on a base of 100 computes 21; no tax data gives none. -/
theorem line_tax_amount_resolution_witness :
    (parseLine false lineExplicitTax).taxAmount = some (.fin 5) ∧
    (parseLine false lineSubtotalTax).taxAmount = some (.fin (mkRat 189 10)) ∧
    (parseLine false lineComputedTax).taxAmount = some (.fin 21) ∧
    (parseLine false lineNoTax).taxAmount = none := by
  refine ⟨?_, ?_, ?_, ?_⟩
  · exact (line_tax_amount_resolution false lineExplicitTax).1 (JsNum.fin 5) (by decide)
  · exact ((line_tax_amount_resolution false lineSubtotalTax).2.1 (by decide)
      (by decide)).trans (by decide)
  · exact ((line_tax_amount_resolution false lineComputedTax).2.2.1 (by decide) (by decide)
      (cacEl "ClassifiedTaxCategory" [cbcEl "Percent" "21"]) (by rfl)).trans (by decide)
  · exact (line_tax_amount_resolution false lineNoTax).2.2.2 (by decide) (by decide) (by rfl)

/-- C7: text normalization yields none for a missing value, and otherwise
none exactly when the trimmed input is empty or is the placeholder NA or
N/A compared case-insensitively; any other input is kept trimmed, with its
original casing. -/
theorem normalizeText_spec :
    normalizeText none = none ∧
    ∀ s : String,
      normalizeText (some s) =
        if jsTrim s = "" ∨ jsToUpper (jsTrim s) = "NA" ∨ jsToUpper (jsTrim s) = "N/A"
        then none else some (jsTrim s) := by
  refine ⟨rfl, fun s => ?_⟩
  by_cases h0 : s = ""
  · subst h0
    have h1 : jsTrim "" = "" := by decide
    simp [normalizeText, h1]
  · by_cases h1 : jsTrim s = ""
    · simp [normalizeText, h0, h1]
    · by_cases h2 : jsToUpper (jsTrim s) = "NA" ∨ jsToUpper (jsTrim s) = "N/A"
      · simp only [normalizeText, if_neg h0, if_neg h1]
        rw [if_pos h2, if_pos (Or.inr h2)]
      · simp only [normalizeText, if_neg h0, if_neg h1]
        rw [if_neg h2, if_neg (fun h => h.elim h1 h2)]

/-- C8: the charge indicator of a parsed AllowanceCharge is true exactly
when the lower-cased trimmed text of the direct-child ChargeIndicator
element is the literal string true or 1; every other text, including the
empty text produced by a missing element, gives false. -/
theorem allowance_charge_indicator_spec (charge : XmlNode) :
    (parseAllowanceCharge charge).chargeIndicator = true ↔
      (jsToLower (cbcDirectText charge "ChargeIndicator") = "true" ∨
       jsToLower (cbcDirectText charge "ChargeIndicator") = "1") := by
  show (jsToLower (cbcDirectText charge "ChargeIndicator") == "true" ||
      jsToLower (cbcDirectText charge "ChargeIndicator") == "1") = true ↔ _
  simp [Bool.or_eq_true]

/-- C10: `parseUblInvoice` is total over DOM-parse outcomes — every outcome
yields either a document model or none — and the outcome standing for an
exception thrown by the underlying XML parser (caught by the surrounding
try/catch) yields none. -/
theorem parseUblInvoice_total :
    (∀ d : DomOutcome, parseUblInvoice d = none ∨ ∃ u, parseUblInvoice d = some u) ∧
    parseUblInvoice DomOutcome.exn = none := by
  refine ⟨fun d => ?_, rfl⟩
  cases h : parseUblInvoice d
  · exact Or.inl rfl
  · exact Or.inr ⟨_, rfl⟩

/-- C5: a sanitized attachment record carries no payload — it is determined
by the metadata fields together with the decoded byte length alone — and its
size in bytes is floor(L * 3 / 4) minus the padding (2 for a trailing
double equals sign, 1 for a single one, 0 otherwise), where L is the length
of the base64 content with all whitespace removed; the same sanitized list
appears in the DTO metadata and in the raw echo. -/
theorem attachment_sanitization_spec :
    (∀ a : UblAttachment,
        (sanitizeAttachment a).size_bytes =
          ((((stripWhitespace a.base64Content).length * 3) / 4 : ℕ) : ℤ) -
            (if jsEndsWith (stripWhitespace a.base64Content) "==" then 2
             else if jsEndsWith (stripWhitespace a.base64Content) "=" then 1
             else 0)) ∧
    (∀ (a : UblAttachment) (c : String),
        base64ByteLength c = base64ByteLength a.base64Content →
        sanitizeAttachment { a with base64Content := c } = sanitizeAttachment a) ∧
    (∀ (ubl : UblInvoice) (docId : String),
        (normalizeUbl ubl docId).extracted.invoice.extra.attachments =
            sanitizeAttachments ubl.attachments ∧
          (normalizeUbl ubl docId).rawPayload.invoice.attachments =
            sanitizeAttachments ubl.attachments) := by
  refine ⟨fun a => ?_, fun a c h => ?_, fun ubl docId => ⟨rfl, rfl⟩⟩
  · show base64ByteLength a.base64Content = _
    unfold base64ByteLength
    by_cases h : stripWhitespace a.base64Content = ""
    · rw [if_pos h, h]
      decide
    · rw [if_neg h]
  · unfold sanitizeAttachment
    show (⟨_, _, _, _, base64ByteLength c⟩ : SanitizedAttachment) = ⟨_, _, _, _, _⟩
    rw [h]

/-- Witness for C5: a payload with an inner space and one padding character
has stripped length 8 and decoded size 5, and replacing the payload by a
different one of the same decoded length leaves the sanitized record
unchanged. -/
theorem attachment_sanitization_witness :
    (sanitizeAttachment sampleAttachment).size_bytes = 5 ∧
    sanitizeAttachment { sampleAttachment with base64Content := "AAAAAAA=" } =
      sanitizeAttachment sampleAttachment := by
  refine ⟨(attachment_sanitization_spec.1 sampleAttachment).trans (by decide), ?_⟩
  exact attachment_sanitization_spec.2.1 sampleAttachment "AAAAAAA=" (by decide)

/-- C6: the header-level tax subtotal list is the flattened concatenation,
in document order, of the TaxSubtotal entries of the direct-child TaxTotal
elements of the root; appending any child that is not a CAC TaxTotal
element — for instance an invoice line with its own nested TaxTotal —
leaves the header list unchanged. -/
theorem header_tax_subtotals_spec :
    (∀ root : XmlNode,
        parseTaxSubtotals root =
          (cacDirectElements root "TaxTotal").flatMap
            (fun t => (cacDirectElements t "TaxSubtotal").map parseTaxSubtotal)) ∧
    (∀ root n : XmlNode, n.nsOf ≠ CAC_NS ∨ n.tagOf ≠ "TaxTotal" →
        parseTaxSubtotals (appendChild root n) = parseTaxSubtotals root) := by
  constructor
  · intro root
    unfold parseTaxSubtotals
    by_cases h : (cacDirectElements root "TaxTotal").length = 0
    · rw [if_pos h, List.length_eq_zero.mp h]
      rfl
    · rw [if_neg h]
      rfl
  · intro root n h
    cases root with
    | text s => rfl
    | elem ns tag attrs cs =>
      have hlist : cacDirectElements (appendChild (XmlNode.elem ns tag attrs cs) n) "TaxTotal" =
          cacDirectElements (XmlNode.elem ns tag attrs cs) "TaxTotal" := by
        cases n with
        | text t =>
          simp [appendChild, cacDirectElements, childElementsByTagNs,
            XmlNode.childrenOf, toList_ofList, List.filter_append, List.filter]
        | elem ns2 t2 a2 c2 =>
          simp only [XmlNode.nsOf, XmlNode.tagOf] at h
          have hc : (ns2 == CAC_NS && t2 == "TaxTotal") = false := by
            rcases h with h | h <;> simp [h]
          simp [appendChild, cacDirectElements, childElementsByTagNs,
            XmlNode.childrenOf, toList_ofList, List.filter_append, List.filter, hc]
      unfold parseTaxSubtotals
      rw [hlist]

/-- Witness for C6 at a concrete document: two direct TaxTotal aggregates
with subtotal amounts 1, 2 and 3 flatten in order, and appending a line
that nests a further TaxTotal changes nothing. -/
theorem header_tax_subtotals_witness :
    (parseTaxSubtotals c6Root).map (fun s => s.taxAmount) =
        [.fin 1, .fin 2, .fin 3] ∧
    parseTaxSubtotals (appendChild c6Root c6NestedLine) = parseTaxSubtotals c6Root := by
  refine ⟨by decide, ?_⟩
  exact header_tax_subtotals_spec.2 c6Root c6NestedLine (Or.inr (by decide))

/-- C2: `parseUblInvoice` returns none exactly when the DOM parse failed
(threw, reported a parser error, or produced no root element), the root's
local name is neither Invoice nor CreditNote, or the ID read from the root
is empty; `normalizeUblResponse` fails with exactly the fixed message
`Failed to parse UBL invoice XML` in precisely those cases, and for every
other input returns the complete normalized result. -/
theorem parse_failure_semantics :
    (∀ d : DomOutcome, parseUblInvoice d = none ↔ parseFailure d) ∧
    (∀ (d : DomOutcome) (docId : String),
        (normalizeUblResponse d docId =
            Except.error "Failed to parse UBL invoice XML" ↔ parseUblInvoice d = none) ∧
        (∀ u, parseUblInvoice d = some u →
          normalizeUblResponse d docId = Except.ok (normalizeUbl u docId))) := by
  constructor
  · intro d
    cases d with
    | exn => exact ⟨fun _ => trivial, fun _ => rfl⟩
    | parsed dd =>
      cases dd with
      | mk hpe root =>
        cases hpe with
        | true => simp [parseUblInvoice, parseFailure]
        | false =>
          cases root with
          | none => simp [parseUblInvoice, parseFailure]
          | some r =>
            by_cases hI : r.tagOf = "Invoice"
            · by_cases hid : cbcText r "ID" = ""
              · simp [parseUblInvoice, parseFailure, hI, hid]
              · simp [parseUblInvoice, parseFailure, hI, hid]
            · by_cases hC : r.tagOf = "CreditNote"
              · by_cases hid : cbcText r "ID" = ""
                · simp [parseUblInvoice, parseFailure, hI, hC, hid]
                · simp [parseUblInvoice, parseFailure, hI, hC, hid]
              · simp [parseUblInvoice, parseFailure, hI, hC]
  · intro d docId
    cases hpu : parseUblInvoice d with
    | none =>
      exact ⟨by simp [normalizeUblResponse, hpu], fun u hu => by cases hu⟩
    | some ubl =>
      refine ⟨by simp [normalizeUblResponse, hpu], fun u hu => ?_⟩
      injection hu with hu
      subst hu
      simp [normalizeUblResponse, hpu]

/-- Witness for C2: an Invoice without an ID and a document with a non-UBL
root both parse to none, normalization fails on the latter with the fixed
message, and the scenario-A document parses to a document model. -/
theorem parse_failure_semantics_witness :
    parseUblInvoice docNoId = none ∧
    parseUblInvoice docBadRoot = none ∧
    normalizeUblResponse docBadRoot "d" = Except.error "Failed to parse UBL invoice XML" ∧
    (∃ u, parseUblInvoice scenarioA = some u) := by
  refine ⟨?_, ?_, ?_, ⟨_, rfl⟩⟩
  · exact (parse_failure_semantics.1 docNoId).mpr
      (Or.inr (Or.inr ⟨_, rfl, Or.inr (by decide)⟩))
  · exact (parse_failure_semantics.1 docBadRoot).mpr
      (Or.inr (Or.inr ⟨_, rfl, Or.inl (by decide)⟩))
  · exact ((parse_failure_semantics.2 docBadRoot "d").1).mpr
      ((parse_failure_semantics.1 docBadRoot).mpr
        (Or.inr (Or.inr ⟨_, rfl, Or.inl (by decide)⟩)))

/-- C3: the DTO tax total is the sum of the header tax subtotals' tax
amounts when that list is non-empty and the sum is finite, and otherwise is
the tax-inclusive minus the tax-exclusive amount, embedded into the DTO's
nullable-number convention; on scenario A (tax-exclusive 100, tax-inclusive
121, no subtotal) the DTO has tax total 21, subtotal 100 and total 121. -/
theorem dto_tax_total_spec :
    (∀ (ubl : UblInvoice) (docId : String),
        (∀ q : ℚ, ubl.taxSubtotals ≠ [] →
          ubl.taxSubtotals.foldl (fun sum s => JsNum.add sum s.taxAmount) (.fin 0) = .fin q →
          (normalizeUbl ubl docId).extracted.invoice.tax_total = some q) ∧
        ((ubl.taxSubtotals = [] ∨
            (ubl.taxSubtotals.foldl (fun sum s => JsNum.add sum s.taxAmount)
              (.fin 0)).isFinite = false) →
          (normalizeUbl ubl docId).extracted.invoice.tax_total =
            toNumberOrNull (some (ubl.monetaryTotal.taxInclusiveAmount.sub
              ubl.monetaryTotal.taxExclusiveAmount)))) ∧
    (normalizeUblResponse scenarioA "doc-1").toOption.map
        (fun r => (r.extracted.invoice.tax_total, r.extracted.invoice.subtotal,
          r.extracted.invoice.total)) = some (some 21, some 100, some 121) := by
  refine ⟨fun ubl docId => ⟨fun q hne hsum => ?_, fun hcase => ?_⟩, by decide⟩
  · rw [normalizeUbl_tax_total]
    simp only [sumTaxTotal, hsum]
    rw [if_pos ⟨List.length_pos.mpr hne, rfl⟩]
    rfl
  · rw [normalizeUbl_tax_total]
    simp only [sumTaxTotal]
    rw [if_neg ?hneg]
    case hneg =>
      rintro ⟨hlen, hfin⟩
      rcases hcase with h | h
      · rw [h] at hlen
        exact absurd hlen (by simp)
      · rw [h] at hfin
        exact Bool.false_ne_true hfin

/-- Witness for C3: one header subtotal of 21 gives tax total 21, and with
no subtotals the fallback 121 - 100 also gives 21. -/
theorem dto_tax_total_spec_witness :
    (normalizeUbl { sampleUbl with taxSubtotals := [sampleSubtotal (.fin 21)] }
        "d").extracted.invoice.tax_total = some 21 ∧
    (normalizeUbl sampleUbl "d").extracted.invoice.tax_total = some 21 := by
  constructor
  · exact (dto_tax_total_spec.1 _ "d").1 21 (by decide) (by decide)
  · exact ((dto_tax_total_spec.1 sampleUbl "d").2 (Or.inl rfl)).trans (by decide)

/-- C4: the DTO discount total is the monetary total's explicit
allowance-total amount when that is present and finite; otherwise, if
header-level allowance/charges exist, the sum of the absolute amounts of
those with a false indicator (embedded into the nullable-number
convention); otherwise null.  The shipping total behaves symmetrically with
the explicit charge-total amount and the true indicator. -/
theorem dto_discount_shipping_spec (ubl : UblInvoice) (docId : String) :
    (∀ q : ℚ, ubl.monetaryTotal.allowanceTotalAmount = some (.fin q) →
        (normalizeUbl ubl docId).extracted.invoice.discount_total = some q) ∧
    (toNumberOrNull ubl.monetaryTotal.allowanceTotalAmount = none →
      ubl.allowanceCharges ≠ [] →
      (normalizeUbl ubl docId).extracted.invoice.discount_total =
        toNumberOrNull (some (sumAllowanceChargesByType (some ubl.allowanceCharges) false))) ∧
    (toNumberOrNull ubl.monetaryTotal.allowanceTotalAmount = none →
      ubl.allowanceCharges = [] →
      (normalizeUbl ubl docId).extracted.invoice.discount_total = none) ∧
    (∀ q : ℚ, ubl.monetaryTotal.chargeTotalAmount = some (.fin q) →
        (normalizeUbl ubl docId).extracted.invoice.shipping_total = some q) ∧
    (toNumberOrNull ubl.monetaryTotal.chargeTotalAmount = none →
      ubl.allowanceCharges ≠ [] →
      (normalizeUbl ubl docId).extracted.invoice.shipping_total =
        toNumberOrNull (some (sumAllowanceChargesByType (some ubl.allowanceCharges) true))) ∧
    (toNumberOrNull ubl.monetaryTotal.chargeTotalAmount = none →
      ubl.allowanceCharges = [] →
      (normalizeUbl ubl docId).extracted.invoice.shipping_total = none) := by
  refine ⟨fun q hq => ?_, fun hn hne => ?_, fun hn he => ?_,
    fun q hq => ?_, fun hn hne => ?_, fun hn he => ?_⟩
  · rw [normalizeUbl_discount_total, hq]
    rfl
  · rw [normalizeUbl_discount_total, hn, Option.or,
      if_pos (List.length_pos.mpr hne)]
  · rw [normalizeUbl_discount_total, hn, he, Option.or]
    rfl
  · rw [normalizeUbl_shipping_total, hq]
    rfl
  · rw [normalizeUbl_shipping_total, hn, Option.or,
      if_pos (List.length_pos.mpr hne)]
  · rw [normalizeUbl_shipping_total, hn, he, Option.or]
    rfl

/-- Witness for C4: an explicit allowance total of 7 is used as is; with no
explicit totals, one allowance of amount -10 gives discount total 10 (the
absolute value) and one charge of amount 3 gives shipping total 3; a
document with neither gives null for both. -/
theorem dto_discount_shipping_witness :
    (normalizeUbl { sampleUbl with monetaryTotal :=
        { sampleMonetaryTotal with allowanceTotalAmount := some (.fin 7) } }
      "d").extracted.invoice.discount_total = some 7 ∧
    (normalizeUbl { sampleUbl with allowanceCharges := [sampleCharge false (.fin (-10))] }
      "d").extracted.invoice.discount_total = some 10 ∧
    (normalizeUbl { sampleUbl with allowanceCharges := [sampleCharge true (.fin 3)] }
      "d").extracted.invoice.shipping_total = some 3 ∧
    (normalizeUbl sampleUbl "d").extracted.invoice.discount_total = none := by
  refine ⟨?_, ?_, ?_, ?_⟩
  · exact (dto_discount_shipping_spec _ "d").1 7 (by decide)
  · exact ((dto_discount_shipping_spec _ "d").2.1 (by decide) (by decide)).trans (by decide)
  · exact ((dto_discount_shipping_spec _ "d").2.2.2.2.1 (by decide) (by decide)).trans
      (by decide)
  · exact (dto_discount_shipping_spec _ "d").2.2.1 (by decide) (by decide)

/-- C9: an explicit zero in any of the four optional LegalMonetaryTotal
amounts is parsed as absent, exactly like a missing element; consequently
the DTO derivations for discount total, shipping total and amount paid see
no explicit amount and fall through to their fallbacks. -/
theorem monetary_zero_absent_spec :
    (∀ root total : XmlNode, cacDirectElement root "LegalMonetaryTotal" = some total →
        ((cbcNumber total "AllowanceTotalAmount" = .fin 0 →
            (parseMonetaryTotal root).allowanceTotalAmount = none) ∧
         (cbcNumber total "ChargeTotalAmount" = .fin 0 →
            (parseMonetaryTotal root).chargeTotalAmount = none) ∧
         (cbcNumber total "PrepaidAmount" = .fin 0 →
            (parseMonetaryTotal root).prepaidAmount = none) ∧
         (cbcNumber total "PayableRoundingAmount" = .fin 0 →
            (parseMonetaryTotal root).payableRoundingAmount = none))) ∧
    (∀ root : XmlNode, cacDirectElement root "LegalMonetaryTotal" = none →
        (parseMonetaryTotal root).allowanceTotalAmount = none ∧
        (parseMonetaryTotal root).chargeTotalAmount = none ∧
        (parseMonetaryTotal root).prepaidAmount = none ∧
        (parseMonetaryTotal root).payableRoundingAmount = none) ∧
    (∀ (ubl : UblInvoice) (docId : String),
        (ubl.monetaryTotal.allowanceTotalAmount = none → ubl.allowanceCharges ≠ [] →
          (normalizeUbl ubl docId).extracted.invoice.discount_total =
            toNumberOrNull (some (sumAllowanceChargesByType (some ubl.allowanceCharges) false))) ∧
        (ubl.monetaryTotal.chargeTotalAmount = none → ubl.allowanceCharges ≠ [] →
          (normalizeUbl ubl docId).extracted.invoice.shipping_total =
            toNumberOrNull (some (sumAllowanceChargesByType (some ubl.allowanceCharges) true))) ∧
        (ubl.monetaryTotal.prepaidAmount = none →
          (normalizeUbl ubl docId).extracted.invoice.amount_paid =
            (match
              (toNumberOrNull (some ubl.monetaryTotal.taxInclusiveAmount)).or
                (toNumberOrNull (some ubl.monetaryTotal.payableAmount)),
              toNumberOrNull (some ubl.monetaryTotal.payableAmount) with
             | some t, some a => if a < t then some (t - a) else none
             | _, _ => none))) := by
  refine ⟨fun root total htot => ?_, fun root hnone => ?_,
    fun ubl docId => ⟨fun hn hne => ?_, fun hn hne => ?_, fun hn => ?_⟩⟩
  · simp only [parseMonetaryTotal, htot]
    refine ⟨fun h0 => ?_, fun h0 => ?_, fun h0 => ?_, fun h0 => ?_⟩ <;>
      · rw [h0]
        rfl
  · simp [parseMonetaryTotal, hnone]
  · rw [normalizeUbl_discount_total, hn,
      show toNumberOrNull none = none from rfl, Option.or,
      if_pos (List.length_pos.mpr hne)]
  · rw [normalizeUbl_shipping_total, hn,
      show toNumberOrNull none = none from rfl, Option.or,
      if_pos (List.length_pos.mpr hne)]
  · rw [normalizeUbl_amount_paid, hn,
      show toNumberOrNull none = none from rfl, Option.or]

/-- Witness for C9: the document whose LegalMonetaryTotal carries explicit
zeros parses all four optional amounts as absent, and a document with an
absent prepaid amount, equal total and payable, and one 10-unit allowance
derives amount paid null and discount total 10. -/
theorem monetary_zero_absent_witness :
    (parseMonetaryTotal c9Root).allowanceTotalAmount = none ∧
    (parseMonetaryTotal c9Root).chargeTotalAmount = none ∧
    (parseMonetaryTotal c9Root).prepaidAmount = none ∧
    (parseMonetaryTotal c9Root).payableRoundingAmount = none ∧
    (normalizeUbl { sampleUbl with allowanceCharges := [sampleCharge false (.fin 10)] }
      "d").extracted.invoice.discount_total = some 10 ∧
    (normalizeUbl sampleUbl "d").extracted.invoice.amount_paid = none := by
  have h := monetary_zero_absent_spec.1 c9Root c9Total rfl
  refine ⟨h.1 (by decide), h.2.1 (by decide), h.2.2.1 (by decide), h.2.2.2 (by decide),
    ?_, ?_⟩
  · exact ((monetary_zero_absent_spec.2.2 _ "d").1 rfl (by decide)).trans (by decide)
  · exact ((monetary_zero_absent_spec.2.2 sampleUbl "d").2.2 rfl).trans (by decide)
